import Mathlib

/-!
Verification development for the charthop-webhook integration hub.

The definitions below are a shallow embedding of the Python sources:

  * `app/services/ctc_calculator.py`  (CTC formula and write-back handler)
  * `app/services/runn_sync.py`       (time-off sync and delete handlers)
  * `app/utils/timeoff_mapping.py`    (ChartHop id ↔ Runn id mapping)
  * `app/utils/sync_metrics.py`       (rolling counters)
  * `app/utils/state_gcs.py`          (object-store state blobs)
  * `app/handlers/runn_full_sync.py`  (warehouse MERGE construction)
  * `app/services/runn_bq_export.py`  (warehouse checkpoint advance)
  * `app/blueprints/charthop_webhook.py` and `teamtailor_webhook.py`
  * `app/services/culture_amp.py`     (snapshot full/delta export)

Machine floats are embedded as rationals; Python rounding (`round(x, 2)`,
round-half-to-even) is `round2` below.  Python truthiness of heterogeneous
JSON values is modelled by `PyVal`; string fields that the code coerces
with `or`-chains defaulting to `""` are modelled directly as `String`
with `""` standing for both `None` and the empty string (the code treats
them identically).  Remote systems are passed in explicitly as
environment records, and the externally visible calls made by a handler
are collected in a trace list.
-/

/-- Python-like heterogeneous JSON scalar, used where the code branches on
truthiness of values that may be absent, boolean, numeric or string. -/
inductive PyVal where
  | none
  | bool (b : Bool)
  | int (n : Int)
  | str (s : String)
deriving DecidableEq, Repr

/-- Python truthiness: `None`, `False`, `0` and `""` are falsy. -/
def pyTruthy : PyVal → Bool
  | .none => false
  | .bool b => b
  | .int n => n != 0
  | .str s => s != ""

/-- Python `a or b`. -/
def pyOr (a b : PyVal) : PyVal := if pyTruthy a then a else b

/-- Python `str(x)`. -/
def pyStr : PyVal → String
  | .none => "None"
  | .bool true => "True"
  | .bool false => "False"
  | .int n => toString n
  | .str s => s

/-- Python `a or b` restricted to string-valued fields (where `""` stands
for an absent value). -/
def pyOrS (a b : String) : String := if a = "" then b else a

/-- Whitespace recognised by Python `str.strip()` (the ASCII part, which
covers every value the sources handle). -/
def isPyWs (c : Char) : Bool := c = ' ' || c = '\t' || c = '\n' || c = '\r'

/-- Characters of a string after Python `str.strip()`. -/
def stripChars (l : List Char) : List Char :=
  ((l.dropWhile isPyWs).reverse.dropWhile isPyWs).reverse

/-- Python `str.strip()`. -/
def pyStrip (s : String) : String := String.mk (stripChars s.data)

/-- ASCII lower-casing of one character; non-ASCII characters are left
unchanged (the scheme and status strings the sources compare only ever
differ in ASCII case). -/
def lowerChar (c : Char) : Char :=
  if 'A' ≤ c ∧ c ≤ 'Z' then Char.ofNat (c.toNat + 32) else c

/-- Python `str.lower()` (ASCII part). -/
def pyLower (s : String) : String := String.mk (s.data.map lowerChar)

/-- Boolean prefix test on character lists. -/
def isPrefixB : List Char → List Char → Bool
  | [], _ => true
  | _ :: _, [] => false
  | a :: as, b :: bs => a = b && isPrefixB as bs

/-- Boolean contiguous-sublist test on character lists (Python `pat in s`). -/
def containsB (pat : List Char) : List Char → Bool
  | [] => isPrefixB pat []
  | c :: cs => isPrefixB pat (c :: cs) || containsB pat cs

/-- Python `pat in s` on strings. -/
def strContains (s pat : String) : Bool := containsB pat.data s.data

/-- Round-half-to-even to an integer, Python `round(q)`. -/
def roundHalfEven (q : ℚ) : ℤ :=
  let f := ⌊q⌋
  let frac := q - (f : ℚ)
  if frac < 1 / 2 then f
  else if 1 / 2 < frac then f + 1
  else if f % 2 = 0 then f else f + 1

/-- Python `round(q, 2)`. -/
def round2 (q : ℚ) : ℚ := (roundHalfEven (q * 100) : ℚ) / 100

/-! ## CTC calculator (`app/services/ctc_calculator.py`) -/

/-- Two annual minimum wages in USD, `(8364 * 12 * 2) / 18.30` from
`_calculate_ctc_from_formula`. -/
def dosSalariosMinimosAnualesUsd : ℚ := (8364 * 12 * 2) / (18.30 : ℚ)

/-- Embedding of `_calculate_ctc_from_formula(base_comp, esquema_contratacion)`:
CTC by hiring scheme, rounded to 2 decimals at the end. -/
def calculate_ctc_from_formula (base_comp : ℚ) (esquema_contratacion : String) : ℚ :=
  if base_comp ≤ 0 then 0
  else
    let esquema := pyLower (pyStrip esquema_contratacion)
    let total_ctc :=
      if esquema ∈ (["nómina", "nomina", "mixto interno"] : List String) then
        base_comp * (1.40 : ℚ)
      else if esquema ∈ (["mixto externo"] : List String) then
        let bonus_dos_salarios := dosSalariosMinimosAnualesUsd * (0.40 : ℚ)
        let restante := base_comp - dosSalariosMinimosAnualesUsd
        let fee_restante := restante * (0.02 : ℚ)
        base_comp + bonus_dos_salarios + fee_restante
      else if esquema = "ontop" then base_comp + 720
      else if esquema = "voiz" then base_comp + 240
      else base_comp
    round2 total_ctc

/-! ## Object-store state (`app/utils/state_gcs.py`) -/

/-- The object store: blob name ↦ stored text. -/
def GcsStore := List (String × String)

/-- Lookup in an association list keyed by strings. -/
def lookupKey {α : Type} (k : String) : List (String × α) → Option α
  | [] => Option.none
  | (k', v) :: rest => if k' = k then some v else lookupKey k rest

/-- Remove a key from an association list. -/
def eraseKey {α : Type} (k : String) : List (String × α) → List (String × α)
  | [] => []
  | (k', v) :: rest => if k' = k then eraseKey k rest else (k', v) :: eraseKey k rest

/-- Insert-or-overwrite in an association list (Python `d[k] = v`). -/
def insertKey {α : Type} (k : String) (v : α) (l : List (String × α)) : List (String × α) :=
  (k, v) :: eraseKey k l

/-- Kinds of Python exceptions the embedded calls can raise. -/
inductive PyErr where
  | typeError
deriving DecidableEq, Repr

/-- Blob written by `state_gcs.save_state` (module constant `_OBJECT`). -/
def stateObjectName : String := "culture-amp/state.json"

/-- Embedding of `state_gcs.save_state(state)`.  The Python function has a
single parameter (a dict, serialized here as its JSON text) and writes the
`_OBJECT` blob; a call supplying any other number of arguments raises
`TypeError` before the body runs. -/
def save_state (args : List String) (store : GcsStore) : Except PyErr GcsStore :=
  match args with
  | [state] => .ok (insertKey stateObjectName state store)
  | _ => .error .typeError

/-! ## Sync metrics (`app/utils/sync_metrics.py`) -/

/-- One recorded error of `SyncMetrics.record_error`. -/
structure ErrRecord where
  timestamp : String
  type : String
  error : String
  entityId : Option String
deriving DecidableEq, Repr

/-- In-process state of the `SyncMetrics` singleton. -/
structure SyncMetrics where
  lastSync : List (String × String) := []
  counters : List (String × Int) := []
  lastErrors : List ErrRecord := []
deriving Repr

/-- Serialization of the metrics dict passed to `save_state` (content is
irrelevant: the call raises `TypeError` on arity before reading it). -/
def serializeMetrics (m : SyncMetrics) : String :=
  String.intercalate "," (m.counters.map fun p => p.1 ++ ":" ++ toString p.2)

/-- Blob name `METRICS_STATE_KEY`. -/
def metricsStateKey : String := "sync_metrics.json"

/-- Embedding of `SyncMetrics._save_metrics`: calls
`save_state(METRICS_STATE_KEY, json.dumps(self._metrics))` with two
arguments inside `try/except`; the Boolean reports whether the `except`
branch logged a failure. -/
def SyncMetrics.save_metrics (m : SyncMetrics) (store : GcsStore) : GcsStore × Bool :=
  match save_state [metricsStateKey, serializeMetrics m] store with
  | .ok s => (s, false)
  | .error _ => (store, true)

/-- Embedding of `SyncMetrics.increment_counter(name, amount)`. -/
def SyncMetrics.increment_counter (m : SyncMetrics) (name : String) (amount : Int := 1)
    (store : GcsStore) : SyncMetrics × GcsStore × Bool :=
  let current := (lookupKey name m.counters).getD 0
  let m' := { m with counters := insertKey name (current + amount) m.counters }
  let (store', logged) := m'.save_metrics store
  (m', store', logged)

/-- Embedding of `SyncMetrics.record_sync(sync_type, timestamp)`. -/
def SyncMetrics.record_sync (m : SyncMetrics) (syncType : String) (timestamp : String)
    (store : GcsStore) : SyncMetrics × GcsStore × Bool :=
  let m' := { m with lastSync := insertKey syncType timestamp m.lastSync }
  let (store', logged) := m'.save_metrics store
  (m', store', logged)

/-- Embedding of `SyncMetrics.record_error(...)`: prepends the record and
keeps the most recent 100. -/
def SyncMetrics.record_error (m : SyncMetrics) (errorType errorMessage : String)
    (entityId : Option String) (timestamp : String) (store : GcsStore) :
    SyncMetrics × GcsStore × Bool :=
  let rec' : ErrRecord := ⟨timestamp, errorType, errorMessage, entityId⟩
  let m' := { m with lastErrors := (rec' :: m.lastErrors).take 100 }
  let (store', logged) := m'.save_metrics store
  (m', store', logged)

/-- Embedding of `SyncMetrics.get_counter(name)`. -/
def SyncMetrics.get_counter (m : SyncMetrics) (name : String) : Int :=
  (lookupKey name m.counters).getD 0

/-! ## Time-off id mapping (`app/utils/timeoff_mapping.py`) -/

/-- Value stored under `ch_to_runn[charthop_id]`. -/
structure MapInfo where
  runnId : Int
  category : String
  personEmail : String
  createdAt : String
deriving DecidableEq, Repr

/-- In-process state of the `TimeoffMapping` singleton: the two dicts
`ch_to_runn` and `runn_to_ch`. -/
structure TimeoffMapping where
  chToRunn : List (String × MapInfo) := []
  runnToCh : List (String × String) := []
deriving Repr

/-- Blob name `TIMEOFF_MAPPING_STATE_KEY`. -/
def timeoffMappingStateKey : String := "timeoff_mapping.json"

/-- Serialization of the mapping dict passed to `save_state` (content is
irrelevant: the call raises `TypeError` on arity before reading it). -/
def serializeMapping (m : TimeoffMapping) : String :=
  String.intercalate ","
    (m.chToRunn.map fun p => p.1 ++ ":" ++ toString p.2.runnId ++ ":" ++ p.2.category)

/-- Embedding of `TimeoffMapping._save_mapping`: calls
`save_state(TIMEOFF_MAPPING_STATE_KEY, json.dumps(self._mapping))` with
two arguments inside `try/except`; the Boolean reports whether the
`except` branch logged a failure. -/
def TimeoffMapping.save_mapping (m : TimeoffMapping) (store : GcsStore) : GcsStore × Bool :=
  match save_state [timeoffMappingStateKey, serializeMapping m] store with
  | .ok s => (s, false)
  | .error _ => (store, true)

/-- Embedding of `TimeoffMapping.add(charthop_id, runn_id, category,
person_email)`; `nowIso` stands for `datetime.utcnow().isoformat()+"Z"`. -/
def TimeoffMapping.add (m : TimeoffMapping) (charthopId : String) (runnId : Int)
    (category personEmail nowIso : String) (store : GcsStore) :
    TimeoffMapping × GcsStore × Bool :=
  let chId := pyStrip charthopId
  if chId = "" then (m, store, false)
  else
    let m' : TimeoffMapping :=
      { chToRunn := insertKey chId ⟨runnId, category, personEmail, nowIso⟩ m.chToRunn
        runnToCh := insertKey (toString runnId) chId m.runnToCh }
    let (store', logged) := m'.save_mapping store
    (m', store', logged)

/-- Embedding of `TimeoffMapping.get_runn_id(charthop_id)`. -/
def TimeoffMapping.get_runn_id (m : TimeoffMapping) (charthopId : String) : Option MapInfo :=
  lookupKey (pyStrip charthopId) m.chToRunn

/-- Embedding of `TimeoffMapping.remove(charthop_id)`: erases both
directions and saves; returns whether an entry existed. -/
def TimeoffMapping.remove (m : TimeoffMapping) (charthopId : String) (store : GcsStore) :
    TimeoffMapping × GcsStore × Bool × Bool :=
  let chId := pyStrip charthopId
  match lookupKey chId m.chToRunn with
  | Option.none => (m, store, false, false)
  | some info =>
    let m' : TimeoffMapping :=
      { chToRunn := eraseKey chId m.chToRunn
        runnToCh := eraseKey (toString info.runnId) m.runnToCh }
    let (store', logged) := m'.save_mapping store
    (m', store', logged, true)

/-! ## CTC write-back handler (`app/services/ctc_calculator.py`) -/

/-- Compensation record for one person as consumed by
`calculate_and_update_ch_ctc`.  Modelled from the spec: the client
function returning it (`ch_get_person_compensation` with `job_id`,
`base_comp` and `esquema_contratacion`, §4.3.6 "look up `base_comp` and
`esquema_contratacion`" and invariant 5) is declared in
`app/clients/__init__.py` but its body is not in the sources; `""` in
`jobId` models an absent job id. -/
structure CompData where
  jobId : String := ""
  baseComp : ℚ := 0
  esquemaContratacion : String := ""
  currency : String := "USD"
deriving DecidableEq, Repr

/-- External calls made by the CTC handler. -/
inductive CtcEv where
  | patchJob (jobId : String) (ctc : ℚ) (currency : String)
deriving DecidableEq, Repr

/-- Environment of the CTC handler: the HRIS fetch and whether the HRIS
job patch (`ch_update_job_ctc`, body absent from the sources, modelled
from the spec as a write that may raise) succeeds. -/
structure CtcEnv where
  getComp : String → Option CompData
  updateJobRaises : Bool

/-- Result record of `calculate_and_update_ch_ctc`. -/
structure CtcResult where
  status : String
  reason : String := ""
  newCtc : Option ℚ := Option.none
deriving Repr

/-- Embedding of `calculate_and_update_ch_ctc(person_id)`: fetch the
person's compensation, compute the CTC, patch the HRIS job in USD, and
update the metrics counters. -/
def calculate_and_update_ch_ctc (env : CtcEnv) (personId nowIso : String)
    (met : SyncMetrics) (store : GcsStore) :
    CtcResult × SyncMetrics × GcsStore × List CtcEv :=
  match env.getComp personId with
  | Option.none =>
    let (met', store', _) := met.increment_counter "ctc_calc_skipped" 1 store
    (⟨"skipped", "person_not_found", Option.none⟩, met', store', [])
  | some compData =>
    if compData.jobId = "" then
      let (met', store', _) := met.increment_counter "ctc_calc_skipped" 1 store
      (⟨"skipped", "missing_job_id", Option.none⟩, met', store', [])
    else if compData.baseComp ≤ 0 then
      let (met', store', _) := met.increment_counter "ctc_calc_skipped" 1 store
      (⟨"skipped", "missing_base_comp", Option.none⟩, met', store', [])
    else
      let newCtc := calculate_ctc_from_formula compData.baseComp compData.esquemaContratacion
      if newCtc ≤ 0 then
        let (met', store', _) := met.increment_counter "ctc_calc_skipped" 1 store
        (⟨"skipped", "calculation_is_zero", Option.none⟩, met', store', [])
      else
        let tr := [CtcEv.patchJob compData.jobId newCtc "USD"]
        if env.updateJobRaises then
          let (met', store', _) := met.increment_counter "ctc_calc_errors" 1 store
          let (met'', store'', _) :=
            met'.record_error "ctc_calc" "exception" (some personId) nowIso store'
          (⟨"error", "failed_to_write_charthop", Option.none⟩, met'', store'', tr)
        else
          let (met', store', _) := met.increment_counter "ctc_calc_updated" 1 store
          let (met'', store'', _) := met'.record_sync "ctc_calc_event" nowIso store'
          (⟨"updated_charthop", "", some newCtc⟩, met'', store'', tr)

/-! ## Time-off reconciler (`app/services/runn_sync.py`) -/

/-- Split a character list on a separator, keeping empty pieces
(Python `s.split(sep)`). -/
def splitOnChar (sep : Char) : List Char → List (List Char)
  | [] => [[]]
  | c :: cs =>
    let rest := splitOnChar sep cs
    if c = sep then [] :: rest
    else
      match rest with
      | [] => [[c]]
      | p :: ps => (c :: p) :: ps

/-- Parse a non-empty all-digit character list as a number. -/
def digitsVal : List Char → Option Nat
  | [] => Option.none
  | l =>
    if l.all Char.isDigit then
      some (l.foldl (fun a c => a * 10 + (c.toNat - 48)) 0)
    else Option.none

/-- Gregorian leap year. -/
def isLeapYear (y : Nat) : Bool := (y % 4 = 0 && y % 100 ≠ 0) || y % 400 = 0

/-- Days in a month. -/
def daysInMonth (y m : Nat) : Nat :=
  if m = 2 then (if isLeapYear y then 29 else 28)
  else if m ∈ ([4, 6, 9, 11] : List Nat) then 30 else 31

/-- Validity of a `%Y-%m-%d` date as checked by
`datetime.strptime(date_str, "%Y-%m-%d")`. -/
def validYmd (l : List Char) : Bool :=
  match splitOnChar '-' l with
  | [ys, ms, ds] =>
    match digitsVal ys, digitsVal ms, digitsVal ds with
    | some y, some m, some d =>
      decide (ys.length ≤ 4) && decide (ms.length ≤ 2) && decide (ds.length ≤ 2) &&
      decide (1 ≤ y) && decide (y ≤ 9999) && decide (1 ≤ m) && decide (m ≤ 12) &&
      decide (1 ≤ d) && decide (d ≤ daysInMonth y m)
    | _, _, _ => false
  | _ => false

/-- Embedding of `_safe_date(value)`: truncate to the first 10 characters
and validate as `YYYY-MM-DD`. -/
def safe_date (value : String) : Option String :=
  if value = "" then Option.none
  else
    let dateStr := String.mk (value.data.take 10)
    if validYmd dateStr.data then some dateStr else Option.none

/-- The `fields` sub-dict of a ChartHop time-off entry (only the keys the
reconciler reads; `""` / `PyVal.none` model absent keys). -/
structure TimeoffFields where
  id : PyVal := .none
  status : String := ""
  state : String := ""
  cancelled : PyVal := .none
  canceled : PyVal := .none
  active : PyVal := .none
  personContactWorkemail : String := ""
  contactWorkemail : String := ""
  personContactPersonalemail : String := ""
  startDate : String := ""
  endDate : String := ""
  type : String := ""
  reason : String := ""
  policy : String := ""
deriving Repr

/-- A ChartHop time-off entry as read by `_sync_timeoff_entry` and
`_should_skip_timeoff`. -/
structure TimeoffEntry where
  id : PyVal := .none
  status : String := ""
  state : String := ""
  cancelled : PyVal := .none
  canceled : PyVal := .none
  active : PyVal := .none
  personEmail : String := ""
  personId : PyVal := .none
  personObjId : PyVal := .none
  startDate : String := ""
  endDate : String := ""
  type : String := ""
  reason : String := ""
  fields : TimeoffFields := {}
deriving Repr

/-- Embedding of `_timeoff_category(entry)`: classify into the Runn v1.0
endpoint (`leave` / `holidays` / `rostered-off`). -/
def timeoff_category (e : TimeoffEntry) : String :=
  let text := pyLower (String.intercalate " "
    [e.fields.type, e.fields.reason, e.type, e.reason, e.fields.policy])
  if strContains text "holiday" || strContains text "feriado" || strContains text "public" then
    "holidays"
  else if strContains text "roster" || strContains text "rostered" ||
      strContains text "floating" || strContains text "lieu" then
    "rostered-off"
  else "leave"

/-- Embedding of `_timeoff_reason(entry)`. -/
def timeoff_reason (e : TimeoffEntry) : String :=
  let rawReason := pyStrip (pyOrS e.fields.reason e.reason)
  let rawType := pyStrip (pyOrS e.fields.type e.type)
  let policy := pyStrip e.fields.policy
  if rawReason ≠ "" then rawReason
  else if rawType ≠ "" then rawType
  else if policy ≠ "" then policy
  else "Time Off"

/-- The status string `_should_skip_timeoff` resolves:
`(entry.status or fields.status or entry.state or fields.state or "").lower()`. -/
def resolvedTimeoffStatus (e : TimeoffEntry) : String :=
  pyLower (pyOrS e.status (pyOrS e.fields.status (pyOrS e.state e.fields.state)))

/-- The skip set of `_should_skip_timeoff`. -/
def skipStatuses : List String :=
  ["denied", "rejected", "cancelled", "canceled", "draft", "pending", "withdrawn"]

/-- The status-based part of `_should_skip_timeoff`: a skip reason when
any skip status occurs inside the resolved status. -/
def statusSkipReason (status : String) : Option String :=
  if skipStatuses.any (fun t => strContains status t) then
    some ("status is " ++ status)
  else Option.none

/-- Embedding of `_should_skip_timeoff(entry)`: the skip reason, or `none`
when the entry must be processed. -/
def should_skip_timeoff (e : TimeoffEntry) : Option String :=
  match statusSkipReason (resolvedTimeoffStatus e) with
  | some r => some r
  | Option.none =>
    let cancelled := pyOr e.cancelled (pyOr e.canceled (pyOr e.fields.cancelled e.fields.canceled))
    if cancelled = PyVal.bool true ∨ pyLower (pyStr cancelled) = "true" then
      some "time off is cancelled"
    else
      let active := pyOr e.active e.fields.active
      if active = PyVal.bool false ∨ pyLower (pyStr active) = "false" then
        some "time off is inactive"
      else Option.none

/-- The external id `ext_id = str(entry.get("id") or fields.get("id") or "")`. -/
def timeoffExtId (e : TimeoffEntry) : String :=
  pyStr (pyOr e.id (pyOr e.fields.id (PyVal.str "")))

/-- A Runn time-off record as returned by `runn_list_person_timeoffs`. -/
structure RunnTimeoffRec where
  startDate : String := ""
  endDate : String := ""
deriving DecidableEq, Repr

/-- Response of a successful `runn_create_timeoff` POST (the created
object; `id` is its `.get("id")`). -/
structure CreateResp where
  id : Option Int := Option.none
deriving DecidableEq, Repr

/-- Environment of the time-off reconciler: the remote Runn and ChartHop
lookups it consults and the outcomes of its write calls.  `v1EmailById`
and `v2EmailById` return the email candidate extracted by the two
ChartHop person-lookup fallbacks (`""` when the person is missing or has
no email — the code treats both identically). -/
structure RunnEnv where
  findPersonByEmail : String → Option Int
  v1EmailById : String → String
  v2EmailById : String → String
  listPersonTimeoffs : Int → String → List RunnTimeoffRec
  createResp : Option CreateResp
  updateOk : Bool
  deleteOk : Bool

/-- Externally visible Runn calls and mapping writes of the reconciler,
in execution order. -/
inductive RunnEv where
  | findPerson (email : String)
  | listTimeoffs (personId : Int) (category : String)
  | createTimeoff (personId : Int) (startDate endDate category : String) (note : Option String)
  | updateTimeoff (runnId : Int) (category startDate endDate : String) (note : Option String)
  | deleteTimeoff (runnId : Int) (category : String)
  | mappingAdd (chId : String) (runnId : Int) (category : String)
deriving DecidableEq, Repr

/-- Whether a trace event is a downstream planner write (create or
update or delete of a time-off). -/
def RunnEv.isWrite : RunnEv → Bool
  | .createTimeoff _ _ _ _ _ => true
  | .updateTimeoff _ _ _ _ _ => true
  | .deleteTimeoff _ _ => true
  | _ => false

/-- Whether a trace event records a `TimeoffMapping.add`. -/
def RunnEv.isMappingAdd : RunnEv → Bool
  | .mappingAdd _ _ _ => true
  | _ => false

/-- Result dict of `_sync_timeoff_entry` / `delete_runn_timeoff_event`
(the keys the claims mention). -/
structure SyncResult where
  status : String := ""
  reason : String := ""
  runnTimeoffId : Option Int := Option.none
  category : String := ""
  extRef : String := ""
deriving Repr

/-- Full outcome of one reconciler invocation: result, the in-process
mapping singleton, the object store, and the trace of external calls. -/
structure SyncOutcome where
  result : SyncResult
  mapping : TimeoffMapping
  store : GcsStore
  trace : List RunnEv

/-- Embedding of the email-resolution steps 1-2 of `_sync_timeoff_entry`:
embedded person email, embedded work emails, embedded personal email,
ChartHop v1 batched lookup by person id, ChartHop v2 person get. -/
def resolveTimeoffEmail (env : RunnEnv) (e : TimeoffEntry) : String :=
  let e1 := pyStrip e.personEmail
  if e1 ≠ "" then e1
  else
    let e2 := pyStrip (pyOrS e.fields.personContactWorkemail e.fields.contactWorkemail)
    if e2 ≠ "" then e2
    else
      let e3 := pyStrip e.fields.personContactPersonalemail
      if e3 ≠ "" then e3
      else
        let personId := pyStrip (pyStr (pyOr e.personId (pyOr e.personObjId (PyVal.str ""))))
        if personId = "" then ""
        else
          let candidate := pyStrip (env.v1EmailById personId)
          if candidate ≠ "" then candidate
          else
            let candidate2 := env.v2EmailById personId
            if candidate2 ≠ "" then candidate2 else ""

/-- Embedding of `_check_existing_timeoff`: the first listed time-off of
the same category whose dates overlap (string comparison on ISO dates,
as in the source). -/
def check_existing_timeoff (env : RunnEnv) (personId : Int)
    (startDate endDate category : String) : Option RunnTimeoffRec :=
  (env.listPersonTimeoffs personId category).find?
    (fun t => decide (t.startDate ≤ endDate) && decide (startDate ≤ t.endDate))

/-- Embedding of `_sync_timeoff_entry(entry)`: skip checks, email and
person resolution, date normalization, category and note derivation,
then update (when a mapping exists) or create followed by recording the
mapping. -/
def sync_timeoff_entry (env : RunnEnv) (nowIso : String) (entry : TimeoffEntry)
    (m : TimeoffMapping) (store : GcsStore) : SyncOutcome :=
  let extId := timeoffExtId entry
  match should_skip_timeoff entry with
  | some reason => ⟨⟨"skipped", reason, Option.none, "", extId⟩, m, store, []⟩
  | Option.none =>
    let email := resolveTimeoffEmail env entry
    if email = "" then
      ⟨⟨"skipped", "missing email", Option.none, "", extId⟩, m, store, []⟩
    else
      match env.findPersonByEmail email with
      | Option.none =>
        ⟨⟨"skipped", "person not found in Runn", Option.none, "", extId⟩, m, store,
          [.findPerson email]⟩
      | some personId =>
        let startDate? := safe_date (pyOrS entry.fields.startDate entry.startDate)
        let endDate? :=
          safe_date (pyOrS entry.fields.endDate (pyOrS entry.endDate (startDate?.getD "")))
        match startDate? with
        | Option.none =>
          ⟨⟨"skipped", "missing start date", Option.none, "", extId⟩, m, store,
            [.findPerson email]⟩
        | some startDate =>
          let endDate := endDate?.getD startDate
          let category := timeoff_category entry
          let reason := timeoff_reason entry
          let note :=
            if extId ≠ "" ∨ reason ≠ "" then
              some ("ChartHop:" ++ extId ++ " • " ++ reason)
            else Option.none
          let existingMapping := if extId ≠ "" then m.get_runn_id extId else Option.none
          match existingMapping with
          | some info =>
            let tr := [RunnEv.findPerson email,
              RunnEv.updateTimeoff info.runnId info.category startDate endDate note]
            if env.updateOk then
              ⟨⟨"updated", "", some info.runnId, info.category, extId⟩, m, store, tr⟩
            else
              ⟨⟨"error", "", some info.runnId, info.category, extId⟩, m, store, tr⟩
          | Option.none =>
            let _ := check_existing_timeoff env personId startDate endDate category
            let trBase := [RunnEv.findPerson email,
              RunnEv.listTimeoffs personId category,
              RunnEv.createTimeoff personId startDate endDate category note]
            match env.createResp with
            | Option.none =>
              ⟨⟨"error", "", Option.none, category, extId⟩, m, store, trBase⟩
            | some resp =>
              match resp.id with
              | some runnId =>
                if runnId ≠ 0 ∧ extId ≠ "" then
                  let (m', store', _) := m.add extId runnId category email nowIso store
                  ⟨⟨"synced", "", some runnId, category, extId⟩, m', store',
                    trBase ++ [RunnEv.mappingAdd extId runnId category]⟩
                else
                  ⟨⟨"synced", "", some runnId, category, extId⟩, m, store, trBase⟩
              | Option.none =>
                ⟨⟨"synced", "", Option.none, category, extId⟩, m, store, trBase⟩

/-- Embedding of `delete_runn_timeoff_event(timeoff_id)`: look up the
mapping, delete on Runn, and remove the mapping only on success; the
metrics counters are updated as in the source. -/
def delete_runn_timeoff_event (env : RunnEnv) (nowIso : String) (timeoffId : String)
    (m : TimeoffMapping) (met : SyncMetrics) (store : GcsStore) :
    SyncOutcome × SyncMetrics :=
  let tid := pyStrip timeoffId
  if tid = "" then
    let (met', store', _) := met.increment_counter "timeoff_errors" 1 store
    let (met'', store'', _) :=
      met'.record_error "timeoff_delete" "missing timeoff_id" Option.none nowIso store'
    (⟨⟨"error", "missing timeoff_id", Option.none, "", ""⟩, m, store'', []⟩, met'')
  else
    match m.get_runn_id tid with
    | Option.none =>
      let (met', store', _) := met.increment_counter "timeoff_skipped" 1 store
      (⟨⟨"skipped", "no mapping found", Option.none, "", tid⟩, m, store', []⟩, met')
    | some info =>
      let tr := [RunnEv.deleteTimeoff info.runnId info.category]
      if env.deleteOk then
        let (m', store', _) := m.remove tid store
        let (met', store'', _) := met.increment_counter "timeoff_deleted" 1 store'
        let (met'', store''', _) := met'.record_sync "timeoff_delete" nowIso store''
        (⟨⟨"deleted", "", some info.runnId, info.category, tid⟩, m', store''', tr⟩, met'')
      else
        let (met', store', _) := met.increment_counter "timeoff_errors" 1 store
        let (met'', store'', _) :=
          met'.record_error "timeoff_delete" "failed to delete from Runn" (some tid) nowIso store'
        (⟨⟨"error", "failed to delete from Runn", some info.runnId, "", tid⟩, m, store'', tr⟩,
          met'')

/-! ## Warehouse MERGE (`app/handlers/runn_full_sync.py`, `_merge_upsert`) -/

/-- Per-resource MERGE configuration (`CONFIG[resource]`): primary key and
optional timestamp field. -/
structure MergeCfg where
  pk : String := "id"
  ts : Option String := Option.none
deriving Repr

/-- A timestamp column value: SQL `NULL`, a parseable timestamp, or a
non-null value `SAFE.TIMESTAMP` cannot parse. -/
inductive TsVal where
  | null
  | valid (t : Int)
  | invalid
deriving DecidableEq, Repr

/-- BigQuery `SAFE.TIMESTAMP`: `NULL` (here `none`) unless the value
parses. -/
def safeTimestamp : TsVal → Option Int
  | .valid t => some t
  | _ => Option.none

/-- SQL `x IS NULL` on a timestamp column. -/
def TsVal.isNull : TsVal → Bool
  | .null => true
  | _ => false

/-- A row of the target or staging table: primary key (compared through
`CAST(... AS STRING)`), the shared timestamp column, and the remaining
columns abstracted as a payload. -/
structure MRow (α : Type) where
  pk : String
  ts : TsVal
  payload : α
deriving DecidableEq, Repr

/-- The `has_ts` test of `_merge_upsert`: the configured ts field exists
in both the staging and the target schema. -/
def has_ts (cfg : MergeCfg) (stagingFields targetFields : List String) : Bool :=
  match cfg.ts with
  | Option.none => false
  | some t => stagingFields.contains t && targetFields.contains t

/-- The `WHEN MATCHED AND (...)` guard generated when `has_ts`:
`SAFE.TIMESTAMP(S.ts) > SAFE.TIMESTAMP(T.ts) OR T.ts IS NULL OR S.ts IS NULL`,
under SQL three-valued logic (a NULL comparison does not update). -/
def tsGuard {α : Type} (s t : MRow α) : Bool :=
  (match safeTimestamp s.ts, safeTimestamp t.ts with
   | some a, some b => decide (b < a)
   | _, _ => false) || t.ts.isNull || s.ts.isNull

/-- First row with a given primary key (the MERGE matches on equal pk
strings). -/
def findPk {α : Type} (k : String) : List (MRow α) → Option (MRow α)
  | [] => Option.none
  | r :: rest => if r.pk = k then some r else findPk k rest

/-- Effect of the MERGE on one target row.  Modelled from the spec: the
generated statement is executed by the warehouse, matching on equal pk
strings, updating every shared column from `S` when the guard passes
(`UPDATE SET` rewrites the matched row's columns, so its pk value is
unchanged). -/
def mergeRow {α : Type} (guardOn : Bool) (staging : List (MRow α)) (t : MRow α) : MRow α :=
  match findPk t.pk staging with
  | Option.none => t
  | some s => if !guardOn || tsGuard s t then { pk := t.pk, ts := s.ts, payload := s.payload } else t

/-- Relational semantics of the generated MERGE: matched target rows are
updated subject to the guard, unmatched staging rows are inserted. -/
def merge_upsert {α : Type} (guardOn : Bool) (target staging : List (MRow α)) :
    List (MRow α) :=
  target.map (mergeRow guardOn staging) ++
    staging.filter (fun s => (findPk s.pk target).isNone)

/-- `_merge_upsert` end to end: choose the guard by schema introspection,
then run the MERGE. -/
def merge_upsert_model {α : Type} (cfg : MergeCfg) (stagingFields targetFields : List String)
    (target staging : List (MRow α)) : List (MRow α) :=
  merge_upsert (has_ts cfg stagingFields targetFields) target staging

/-! ## Warehouse checkpoint (`app/services/runn_bq_export.py`, `run_sync`) -/

/-- The `max_upd` loop of `run_sync`: maximum parsed `updatedAt` over the
fetched rows (`none` entries are rows without a parseable timestamp). -/
def maxUpdatedAt (rows : List (Option Int)) : Option Int :=
  rows.foldl
    (fun acc v =>
      match v with
      | Option.none => acc
      | some ts =>
        match acc with
        | Option.none => some ts
        | some mx => some (if mx < ts then ts else mx))
    Option.none

/-- The checkpoint-advance step at the end of a `run_sync` iteration:
with no rows the checkpoint is untouched; otherwise it becomes
`max(updatedAt)` (falling back to the batch-start time `now`), clamped
from below by the previous checkpoint. -/
def run_sync_checkpoint (prev : Option Int) (now : Int) (rows : List (Option Int)) :
    Option Int :=
  if rows.isEmpty then prev
  else
    let maxUpd := maxUpdatedAt rows
    let newCheckpoint := maxUpd.getD now
    let newCheckpoint :=
      match prev with
      | some p => if newCheckpoint < p then p else newCheckpoint
      | Option.none => newCheckpoint
    some newCheckpoint

/-! ## Webhook endpoints (`app/blueprints/charthop_webhook.py`,
`app/blueprints/teamtailor_webhook.py`) -/

/-- Python `s.replace("-", ".")`. -/
def pyReplaceDash (s : String) : String :=
  String.mk (s.data.map (fun c => if c = '-' then '.' else c))

/-- The casing/separator variants of the ChartHop webhook payload fields. -/
structure ChEvent where
  type : String := ""
  eventType : String := ""
  event_type : String := ""
  entityType : String := ""
  entitytype : String := ""
  entity_type : String := ""
  entityId : PyVal := .none
  entityid : PyVal := .none
  entity_id : PyVal := .none
deriving Repr

/-- HTTP outcome of a Flask view: an explicit response, or an exception
that escaped the handler. -/
inductive HttpResult where
  | resp (body : String) (status : Nat)
  | raised
deriving DecidableEq, Repr

/-- Environment of the ChartHop webhook: whether task enqueues succeed
and whether the synchronous job-sync calls raise. -/
structure ChWebhookEnv where
  enqueue : String → String → Except Unit String
  jobCreateOk : String → Bool
  jobUpdateOk : String → Bool

/-- The dispatch part of `ch_webhook()`, taking the classification flags.
The timeoff and person branches catch enqueue failures and return 500;
the job branch calls `sync_job_create` / `sync_job_update` outside any
`try`, so their exceptions escape. -/
def ch_dispatch (env : ChWebhookEnv)
    (isJob isTimeoff isPerson isCreate isUpdate isDelete : Bool)
    (entityId : String) : HttpResult :=
  if isTimeoff && entityId != "" then
    match env.enqueue (if isDelete then "timeoff_delete" else "timeoff") entityId with
    | .ok _ => .resp "" 200
    | .error _ => .resp "" 500
  else if isPerson && entityId != "" && (isCreate || isUpdate) then
    match env.enqueue "person" entityId with
    | .ok _ => .resp "" 200
    | .error _ => .resp "" 500
  else if !isJob then .resp "" 200
  else if isCreate && entityId == "" then .resp "" 200
  else if isCreate && !(env.jobCreateOk entityId) then .raised
  else if isUpdate && entityId != "" && !(env.jobUpdateOk entityId) then .raised
  else .resp "" 200

/-- Embedding of `ch_webhook()`: tolerant extraction of the event type,
entity and id, classification, then dispatch. -/
def ch_webhook (env : ChWebhookEnv) (method : String) (evt : ChEvent) : HttpResult :=
  if method = "GET" then .resp "ChartHop webhook up" 200
  else
    let evtypeRaw := pyLower (pyOrS evt.type (pyOrS evt.eventType evt.event_type))
    let evtype := pyReplaceDash evtypeRaw
    let entity0 := pyLower (pyOrS evt.entityType (pyOrS evt.entitytype evt.entity_type))
    let entityId :=
      pyStr (pyOr evt.entityId (pyOr evt.entityid (pyOr evt.entity_id (PyVal.str ""))))
    let typeParts := ((splitOnChar '.' evtype.data).map String.mk).filter (· ≠ "")
    let typeEntity := if typeParts.length ≥ 2 then typeParts.headD "" else ""
    let action := if typeParts ≠ [] then typeParts.getLastD "" else evtype
    let entity := if entity0 = "" ∧ typeEntity ≠ "" then typeEntity else entity0
    ch_dispatch env
      (decide (entity ∈ (["job", "jobs"] : List String)))
      (decide (entity ∈ (["timeoff", "time off", "time-off"] : List String)) ||
        decide (typeEntity = "timeoff"))
      (decide (entity ∈ (["person", "people"] : List String)) ||
        decide (typeEntity = "person"))
      (decide (action ∈ (["create", "created"] : List String)))
      (decide (action ∈ (["update", "updated", "change", "changed"] : List String)))
      (decide (action ∈ (["delete", "deleted", "remove", "removed"] : List String)))
      entityId

/-- Payload fields read by the Teamtailor webhook. -/
structure TtPayload where
  resource_id : PyVal := .none
  id : PyVal := .none
deriving Repr

/-- Environment of the Teamtailor webhook: signature verification, the
application fetch and its attributes, and whether the downstream CSV
submission raises (its exception is caught by the view's `try/except`). -/
structure TtEnv where
  verifySig : String → String → Bool
  fetchOk : Bool := true
  status : String := ""
  state : String := ""
  hiredAt : PyVal := .none
  importOk : Bool := true

/-- Embedding of `tt_webhook()`: the whole body runs inside
`try/except`, and every exit path returns `("", 200)`. -/
def tt_webhook (env : TtEnv) (payload : TtPayload) (sigHeader : String) : String × Nat :=
  let rid := pyStr (pyOr payload.resource_id (pyOr payload.id (PyVal.str "")))
  if ¬ env.verifySig rid sigHeader then ("", 200)
  else if rid = "" then ("", 200)
  else if ¬ env.fetchOk then ("", 200)
  else
    let status := pyLower (pyOrS env.status env.state)
    if status ≠ "hired" ∧ ¬ pyTruthy env.hiredAt then ("", 200)
    else if env.importOk then ("", 200)
    else ("", 200)

/-! ## Snapshot export (`app/services/culture_amp.py`) -/

/-- The fifteen-column Culture Amp CSV row (`CULTURE_AMP_COLUMNS`). -/
structure CaRow where
  employeeId : String := ""
  email : String := ""
  name : String := ""
  preferredName : String := ""
  managerEmail : String := ""
  manager : String := ""
  location : String := ""
  jobTitle : String := ""
  seniority : String := ""
  startDate : String := ""
  endDate : String := ""
  department : String := ""
  country : String := ""
  employmentType : String := ""
  gender : String := ""
deriving DecidableEq, Repr

/-- One manifest entry: content hash, ChartHop person id, and the row. -/
structure ManifestEntry where
  hash : String
  chPersonId : String
  row : CaRow
deriving DecidableEq, Repr

/-- The snapshot manifest, keyed by Employee Id. -/
abbrev Manifest := List (String × ManifestEntry)

/-- Embedding of `_full_export()` over the upstream scan (each person as
`(row, ch_person_id)`, as produced by `iter_culture_amp_rows_with_ids`;
`build_culture_amp_rows` drops the ids).  `hashF` abstracts `_row_hash`
(SHA-256 of the canonical row JSON); the claims hold for every hash
function.  An empty row set raises (`CSV vacío`); otherwise the CSV is
uploaded and the manifest rewritten with `ch_person_id = ""`. -/
def full_export (hashF : CaRow → String) (upstream : List (CaRow × String)) :
    Except String (Manifest × Nat) :=
  let rows := upstream.map (·.1)
  if rows.isEmpty then .error "CSV vacío para Culture Amp"
  else
    let currentMeta : Manifest :=
      rows.foldl (fun acc r => insertKey r.employeeId ⟨hashF r, "", r⟩ acc) []
    .ok (currentMeta, rows.length)

/-- Payload of the ChartHop person fetch used for terminated people
(`fields=endDateOrg,contact.workEmail`). -/
structure CaPersonPayload where
  endDateOrg : String := ""
  workEmail : String := ""
deriving Repr

/-- Environment of the delta export: the ChartHop person fetch (`none`
models a missing person, a non-dict payload, or a caught network
error). -/
structure CaEnv where
  personLookup : String → Option CaPersonPayload

/-- The `current_meta` dict of the delta branch (also `current`, whose
rows it contains). -/
def buildCurrentMeta (hashF : CaRow → String) (upstream : List (CaRow × String)) : Manifest :=
  upstream.foldl (fun acc p => insertKey p.1.employeeId ⟨hashF p.1, p.2, p.1⟩ acc) []

/-- The new-or-changed part of `to_send`: rows absent from the previous
manifest or whose hash differs. -/
def deltaNewChanged (prev currentMeta : Manifest) : List (String × CaRow) :=
  currentMeta.foldl
    (fun acc p =>
      match lookupKey p.1 prev with
      | Option.none => insertKey p.1 p.2.row acc
      | some prevMeta => if p.2.hash ≠ prevMeta.hash then insertKey p.1 p.2.row acc else acc)
    []

/-- `missing_ids = set(prev_rows) - set(current_meta)` (as a list). -/
def missingIds (prev currentMeta : Manifest) : List String :=
  (prev.map (·.1)).filter (fun k => (lookupKey k currentMeta).isNone)

/-- The terminated-people loop of the delta branch: re-send rows that
already carry an End Date, otherwise look the person up and stamp
`endDateOrg` into the previous row; people without an end date are
deferred. -/
def deltaMissing (env : CaEnv) (prev : Manifest) (missing : List String)
    (toSend : List (String × CaRow)) : List (String × CaRow) :=
  missing.foldl
    (fun acc empId =>
      match lookupKey empId prev with
      | Option.none => acc
      | some prevEntry =>
        let prevRow := prevEntry.row
        if pyStrip prevRow.endDate ≠ "" then insertKey empId prevRow acc
        else
          let chPid := pyStrip prevEntry.chPersonId
          if chPid = "" then acc
          else
            match env.personLookup chPid with
            | Option.none => acc
            | some payload =>
              let endNow := pyStrip payload.endDateOrg
              if endNow = "" then acc
              else
                let row1 := { prevRow with endDate := String.mk (endNow.data.take 10) }
                let row2 :=
                  if row1.email = "" then { row1 with email := pyStrip payload.workEmail }
                  else row1
                let row3 :=
                  if row2.employeeId = "" then
                    { row2 with employeeId := pyOrS row2.email empId }
                  else row2
                insertKey empId row3 acc)
    toSend

/-- Result of the delta branch of `export_culture_amp_snapshot`. -/
structure DeltaResult where
  rowsSent : Nat
  skipped : Bool
  uploaded : Bool
deriving DecidableEq, Repr

/-- Embedding of the delta branch of `export_culture_amp_snapshot()`:
compute `to_send`, upload only when it is non-empty, and rewrite the
manifest to the current snapshot in either case (a `to_send` row always
produces a CSV line, so the defensive empty-CSV early return of the
source is unreachable once `to_send` is non-empty). -/
def delta_export (hashF : CaRow → String) (env : CaEnv) (upstream : List (CaRow × String))
    (prev : Manifest) : DeltaResult × Manifest :=
  let currentMeta := buildCurrentMeta hashF upstream
  let toSend := deltaMissing env prev (missingIds prev currentMeta)
    (deltaNewChanged prev currentMeta)
  let newManifest : Manifest :=
    currentMeta.map (fun p => (p.1, (⟨p.2.hash, p.2.chPersonId, p.2.row⟩ : ManifestEntry)))
  if toSend.isEmpty then (⟨0, true, false⟩, newManifest)
  else (⟨toSend.length, false, true⟩, newManifest)

/-! ## Helper lemmas on association lists -/

theorem lookupKey_erase_self {α : Type} (k : String) (l : List (String × α)) :
    lookupKey k (eraseKey k l) = Option.none := by
  induction l with
  | nil => rfl
  | cons hd tl ih =>
    obtain ⟨k₀, v₀⟩ := hd
    by_cases hk : k₀ = k
    · simpa [eraseKey, hk] using ih
    · simpa [eraseKey, lookupKey, hk] using ih

theorem lookupKey_erase_ne {α : Type} (k k' : String) (l : List (String × α)) (h : k' ≠ k) :
    lookupKey k (eraseKey k' l) = lookupKey k l := by
  induction l with
  | nil => rfl
  | cons hd tl ih =>
    obtain ⟨k₀, v₀⟩ := hd
    by_cases hk : k₀ = k'
    · subst hk
      rw [show eraseKey k₀ ((k₀, v₀) :: tl) = eraseKey k₀ tl by simp [eraseKey]]
      rw [ih]
      rw [show lookupKey k ((k₀, v₀) :: tl) = lookupKey k tl by simp [lookupKey, h]]
    · rw [show eraseKey k' ((k₀, v₀) :: tl) = (k₀, v₀) :: eraseKey k' tl by simp [eraseKey, hk]]
      by_cases hk2 : k₀ = k
      · simp [lookupKey, hk2]
      · simp only [lookupKey, if_neg hk2]
        exact ih

theorem lookupKey_insert_self {α : Type} (k : String) (v : α) (l : List (String × α)) :
    lookupKey k (insertKey k v l) = some v := by
  simp [insertKey, lookupKey]

theorem lookupKey_insert_ne {α : Type} (k k' : String) (v : α) (l : List (String × α))
    (h : k' ≠ k) : lookupKey k (insertKey k' v l) = lookupKey k l := by
  simp only [insertKey, lookupKey, if_neg h]
  exact lookupKey_erase_ne k k' l h

theorem eraseKey_of_not_mem {α : Type} (k : String) (l : List (String × α))
    (h : lookupKey k l = Option.none) : eraseKey k l = l := by
  induction l with
  | nil => simp [eraseKey]
  | cons hd tl ih =>
    obtain ⟨k₀, v₀⟩ := hd
    by_cases hk : k₀ = k
    · subst hk
      simp [lookupKey] at h
    · simp only [lookupKey, if_neg hk] at h
      simp [eraseKey, hk, ih h]

/-! ## Claim theorems -/

/-- C2: every durable write of the TimeOffMapping and SyncMetrics state
fails.  `TimeoffMapping._save_mapping` and `SyncMetrics._save_metrics`
call `save_state(key, json_string)` with two arguments, but
`state_gcs.save_state` accepts a single dict argument, so the call
raises `TypeError`, which is caught and only logged (the Boolean
component): the object store is returned unchanged by every such
operation, and only the in-process singleton retains the change (shown
here for `TimeoffMapping.add` and `SyncMetrics.increment_counter`). -/
theorem state_write_arity_failure :
    (∀ (m : TimeoffMapping) (store : GcsStore), m.save_mapping store = (store, true))
    ∧ (∀ (met : SyncMetrics) (store : GcsStore), met.save_metrics store = (store, true))
    ∧ (∀ (m : TimeoffMapping) (chId : String) (rid : Int) (cat email now : String)
        (store : GcsStore), pyStrip chId ≠ "" →
        (m.add chId rid cat email now store).2.1 = store
        ∧ (m.add chId rid cat email now store).2.2 = true
        ∧ (m.add chId rid cat email now store).1.get_runn_id chId = some ⟨rid, cat, email, now⟩)
    ∧ (∀ (met : SyncMetrics) (name : String) (amt : Int) (store : GcsStore),
        (met.increment_counter name amt store).2.1 = store
        ∧ (met.increment_counter name amt store).1.get_counter name
            = met.get_counter name + amt) := by
  refine ⟨fun m store => rfl, fun met store => rfl, ?_, ?_⟩
  · intro m chId rid cat email now store h
    simp only [TimeoffMapping.add, if_neg h]
    refine ⟨rfl, rfl, ?_⟩
    simp only [TimeoffMapping.get_runn_id]
    exact lookupKey_insert_self _ _ _
  · intro met name amt store
    refine ⟨rfl, ?_⟩
    simp only [SyncMetrics.increment_counter, SyncMetrics.get_counter]
    rw [lookupKey_insert_self]
    rfl

/-- C2 witness: concrete instance of `state_write_arity_failure`. -/
theorem state_write_arity_failure_witness :
    ({ chToRunn := [], runnToCh := [] } : TimeoffMapping).save_mapping [] = ([], true)
    ∧ (({} : TimeoffMapping).add "to-7" 99 "leave" "a@b.c" "t0" []).2.1 = []
    ∧ (({} : TimeoffMapping).add "to-7" 99 "leave" "a@b.c" "t0" []).1.get_runn_id "to-7"
        = some ⟨99, "leave", "a@b.c", "t0"⟩ := by
  refine ⟨state_write_arity_failure.1 _ _, ?_, ?_⟩
  · exact (state_write_arity_failure.2.2.1 {} "to-7" 99 "leave" "a@b.c" "t0" [] (by decide)).1
  · exact (state_write_arity_failure.2.2.1 {} "to-7" 99 "leave" "a@b.c" "t0" [] (by decide)).2.2

/-- C4: for every base > 0 the CTC computation returns, rounded to 2
decimals: base × 1.40 for `Nómina` and `Mixto Interno`;
base + 0.40 × MIN_2Y_USD + 0.02 × (base − MIN_2Y_USD) with
MIN_2Y_USD = (8364 × 12 × 2) / 18.30 for `Mixto Externo`; base + 720 for
`Ontop`; base + 240 for `Voiz`; and the base unchanged (up to the final
rounding) for any other scheme — where a scheme string names one of the
five schemes exactly when the code's normalization (whitespace trim and
ASCII lower-casing, with the unaccented spelling `nomina` also accepted
for `Nómina`) maps it into the recognised set. -/
theorem ctc_formula_table (base : ℚ) (hb : 0 < base) :
    calculate_ctc_from_formula base "Nómina" = round2 (base * 1.40)
    ∧ calculate_ctc_from_formula base "Mixto Interno" = round2 (base * 1.40)
    ∧ calculate_ctc_from_formula base "Mixto Externo" =
        round2 (base + 0.40 * ((8364 * 12 * 2) / (18.30 : ℚ))
          + 0.02 * (base - (8364 * 12 * 2) / (18.30 : ℚ)))
    ∧ calculate_ctc_from_formula base "Ontop" = round2 (base + 720)
    ∧ calculate_ctc_from_formula base "Voiz" = round2 (base + 240)
    ∧ ∀ scheme : String,
        pyLower (pyStrip scheme) ∉
          (["nómina", "nomina", "mixto interno", "mixto externo", "ontop", "voiz"] : List String) →
        calculate_ctc_from_formula base scheme = round2 base := by
  have hb' : ¬ base ≤ 0 := not_le.mpr hb
  refine ⟨?_, ?_, ?_, ?_, ?_, ?_⟩
  · simp only [calculate_ctc_from_formula, if_neg hb']
    rw [if_pos (by decide : pyLower (pyStrip "Nómina") ∈
      (["nómina", "nomina", "mixto interno"] : List String))]
  · simp only [calculate_ctc_from_formula, if_neg hb']
    rw [if_pos (by decide : pyLower (pyStrip "Mixto Interno") ∈
      (["nómina", "nomina", "mixto interno"] : List String))]
  · simp only [calculate_ctc_from_formula, if_neg hb']
    rw [if_neg (by decide : ¬ pyLower (pyStrip "Mixto Externo") ∈
      (["nómina", "nomina", "mixto interno"] : List String))]
    rw [if_pos (by decide : pyLower (pyStrip "Mixto Externo") ∈
      (["mixto externo"] : List String))]
    unfold dosSalariosMinimosAnualesUsd
    congr 1
    ring
  · simp only [calculate_ctc_from_formula, if_neg hb']
    rw [if_neg (by decide : ¬ pyLower (pyStrip "Ontop") ∈
      (["nómina", "nomina", "mixto interno"] : List String))]
    rw [if_neg (by decide : ¬ pyLower (pyStrip "Ontop") ∈
      (["mixto externo"] : List String))]
    rw [if_pos (by decide : pyLower (pyStrip "Ontop") = "ontop")]
  · simp only [calculate_ctc_from_formula, if_neg hb']
    rw [if_neg (by decide : ¬ pyLower (pyStrip "Voiz") ∈
      (["nómina", "nomina", "mixto interno"] : List String))]
    rw [if_neg (by decide : ¬ pyLower (pyStrip "Voiz") ∈
      (["mixto externo"] : List String))]
    rw [if_neg (by decide : ¬ pyLower (pyStrip "Voiz") = "ontop")]
    rw [if_pos (by decide : pyLower (pyStrip "Voiz") = "voiz")]
  · intro scheme hs
    simp only [List.mem_cons, List.not_mem_nil, or_false, not_or] at hs
    obtain ⟨h1, h2, h3, h4, h5, h6⟩ := hs
    simp only [calculate_ctc_from_formula, if_neg hb']
    rw [if_neg (by simp [h1, h2, h3]), if_neg (by simp [h4]), if_neg h5, if_neg h6]

/-- C4 witness: the table at base 3. -/
theorem ctc_formula_table_witness :
    (0 : ℚ) < 3 ∧ calculate_ctc_from_formula 3 "Ontop" = round2 (3 + 720)
    ∧ calculate_ctc_from_formula 3 "unknown-scheme" = round2 3 :=
  ⟨by norm_num, (ctc_formula_table 3 (by norm_num)).2.2.2.1,
    (ctc_formula_table 3 (by norm_num)).2.2.2.2.2 "unknown-scheme" (by decide)⟩

theorem save_metrics_eq (met : SyncMetrics) (store : GcsStore) :
    met.save_metrics store = (store, true) := rfl

theorem save_mapping_eq (m : TimeoffMapping) (store : GcsStore) :
    m.save_mapping store = (store, true) := rfl

theorem increment_counter_eq (met : SyncMetrics) (name : String) (amt : Int)
    (store : GcsStore) :
    met.increment_counter name amt store =
      ({ met with counters :=
          insertKey name ((lookupKey name met.counters).getD 0 + amt) met.counters },
        store, true) := rfl

theorem record_sync_eq (met : SyncMetrics) (syncType timestamp : String) (store : GcsStore) :
    met.record_sync syncType timestamp store =
      ({ met with lastSync := insertKey syncType timestamp met.lastSync }, store, true) := rfl

theorem record_error_eq (met : SyncMetrics) (errorType errorMessage : String)
    (entityId : Option String) (timestamp : String) (store : GcsStore) :
    met.record_error errorType errorMessage entityId timestamp store =
      ({ met with lastErrors :=
          ((⟨timestamp, errorType, errorMessage, entityId⟩ : ErrRecord) :: met.lastErrors).take 100 },
        store, true) := rfl

theorem mapping_add_eq (m : TimeoffMapping) (chId : String) (rid : Int)
    (cat email now : String) (store : GcsStore) (h : pyStrip chId ≠ "") :
    m.add chId rid cat email now store =
      ({ chToRunn := insertKey (pyStrip chId) ⟨rid, cat, email, now⟩ m.chToRunn
         runnToCh := insertKey (toString rid) (pyStrip chId) m.runnToCh }, store, true) := by
  simp only [TimeoffMapping.add, if_neg h, save_mapping_eq]

theorem mapping_remove_eq (m : TimeoffMapping) (chId : String) (info : MapInfo)
    (store : GcsStore) (h : lookupKey (pyStrip chId) m.chToRunn = some info) :
    m.remove chId store =
      ({ chToRunn := eraseKey (pyStrip chId) m.chToRunn
         runnToCh := eraseKey (toString info.runnId) m.runnToCh }, store, true, true) := by
  simp only [TimeoffMapping.remove, h, save_mapping_eq]

/-- The CTC of the corrected-claim counterexample: a positive base small
enough that the whole formula rounds to 0. -/
theorem ctc_tiny_base_rounds_to_zero :
    calculate_ctc_from_formula (1 / 1000) "Nómina" = 0 := by
  simp only [calculate_ctc_from_formula]
  rw [if_neg (by norm_num : ¬ (1 / 1000 : ℚ) ≤ 0)]
  rw [if_pos (by decide : pyLower (pyStrip "Nómina") ∈
    (["nómina", "nomina", "mixto interno"] : List String))]
  norm_num [round2, roundHalfEven]

/-- C3 counterexample: the claim as stated says the handler skips only
when the job id is missing or the base is ≤ 0; here the job id is
present and the base positive, yet the handler returns `skipped`
(the CTC formula rounds to 0 and the `calculation_is_zero` guard
fires). -/
theorem ctc_recalculate_counterexample :
    (calculate_and_update_ch_ctc
        ⟨fun _ => some ⟨"j-1", 1 / 1000, "Nómina", "USD"⟩, false⟩
        "p1" "t0" {} []).1.status = "skipped"
    ∧ ¬(("j-1" : String) = "" ∨ (1 / 1000 : ℚ) ≤ 0) := by
  constructor
  · simp only [calculate_and_update_ch_ctc]
    rw [if_neg (by decide : ¬ ("j-1" : String) = "")]
    rw [if_neg (by norm_num : ¬ (1 / 1000 : ℚ) ≤ 0)]
    rw [if_pos (by rw [ctc_tiny_base_rounds_to_zero])]
  · push_neg
    exact ⟨by decide, by norm_num⟩

/-- The CTC of the amended claim's positive scenario. -/
theorem ctc_ontop_60000 : calculate_ctc_from_formula 60000 "Ontop" = 60720 := by
  simp only [calculate_ctc_from_formula]
  rw [if_neg (by norm_num : ¬ (60000 : ℚ) ≤ 0)]
  rw [if_neg (by decide : ¬ pyLower (pyStrip "Ontop") ∈
    (["nómina", "nomina", "mixto interno"] : List String))]
  rw [if_neg (by decide : ¬ pyLower (pyStrip "Ontop") ∈ (["mixto externo"] : List String))]
  rw [if_pos (by decide : pyLower (pyStrip "Ontop") = "ontop")]
  norm_num [round2, roundHalfEven]

/-- C3 (amended): for a person whose fetched record has base 60000,
scheme `Ontop` and job id `j-1`, the handler patches the HRIS job with
ctc 60720.00 in USD and increments `ctc_calc_updated`; given the record
is found, it skips (without patching) exactly when the job id is
missing, the base is ≤ 0, or the scheme formula rounded to 2 decimals
yields ≤ 0. -/
theorem ctc_recalculate_amended (env : CtcEnv) (personId nowIso : String)
    (met : SyncMetrics) (store : GcsStore) (comp : CompData)
    (hcomp : env.getComp personId = some comp) :
    (((calculate_and_update_ch_ctc env personId nowIso met store).1.status = "skipped")
      ↔ (comp.jobId = "" ∨ comp.baseComp ≤ 0
          ∨ calculate_ctc_from_formula comp.baseComp comp.esquemaContratacion ≤ 0))
    ∧ ((calculate_and_update_ch_ctc env personId nowIso met store).1.status = "skipped" →
        (calculate_and_update_ch_ctc env personId nowIso met store).2.2.2 = [])
    ∧ (comp = ⟨"j-1", 60000, "Ontop", "USD"⟩ → env.updateJobRaises = false →
        (calculate_and_update_ch_ctc env personId nowIso met store).1.status
            = "updated_charthop"
        ∧ (calculate_and_update_ch_ctc env personId nowIso met store).2.2.2
            = [.patchJob "j-1" 60720 "USD"]
        ∧ ((calculate_and_update_ch_ctc env personId nowIso met store).2.1).get_counter
              "ctc_calc_updated"
            = met.get_counter "ctc_calc_updated" + 1) := by
  simp only [calculate_and_update_ch_ctc, hcomp]
  by_cases h1 : comp.jobId = ""
  · simp only [if_pos h1]
    refine ⟨by simp [h1], fun _ => trivial, ?_⟩
    intro hc _
    rw [hc] at h1
    exact absurd h1 (by decide)
  · simp only [if_neg h1]
    by_cases h2 : comp.baseComp ≤ 0
    · simp only [if_pos h2]
      refine ⟨by simp [h2], fun _ => trivial, ?_⟩
      intro hc _
      rw [hc] at h2
      norm_num at h2
    · simp only [if_neg h2]
      by_cases h3 : calculate_ctc_from_formula comp.baseComp comp.esquemaContratacion ≤ 0
      · simp only [if_pos h3]
        refine ⟨by simp [h3], fun _ => trivial, ?_⟩
        intro hc _
        rw [hc] at h3
        rw [ctc_ontop_60000] at h3
        norm_num at h3
      · simp only [if_neg h3]
        by_cases h4 : env.updateJobRaises = true
        · simp only [if_pos h4]
          refine ⟨?_, fun h => absurd h (by decide), ?_⟩
          · constructor
            · intro h
              exact absurd h (by decide)
            · intro h
              rcases h with h | h | h
              · exact absurd h h1
              · exact absurd h h2
              · exact absurd h h3
          · intro _ hup
            rw [hup] at h4
            exact absurd h4 (by decide)
        · simp only [if_neg h4]
          refine ⟨?_, fun h => absurd h (by decide), ?_⟩
          · constructor
            · intro h
              exact absurd h (by decide)
            · intro h
              rcases h with h | h | h
              · exact absurd h h1
              · exact absurd h h2
              · exact absurd h h3
          · intro hc _
            subst hc
            refine ⟨trivial, ?_, ?_⟩
            · simp only [ctc_ontop_60000]
            · simp only [increment_counter_eq, record_sync_eq, SyncMetrics.get_counter]
              rw [lookupKey_insert_self]
              rfl

/-- C3 witness: `ctc_recalculate_amended` at the concrete scenario
environment and an empty metrics singleton. -/
theorem ctc_recalculate_amended_witness :
    (calculate_and_update_ch_ctc
        ⟨fun _ => some ⟨"j-1", 60000, "Ontop", "USD"⟩, false⟩
        "p5" "t0" {} []).1.status = "updated_charthop"
    ∧ (calculate_and_update_ch_ctc
        ⟨fun _ => some ⟨"j-1", 60000, "Ontop", "USD"⟩, false⟩
        "p5" "t0" {} []).2.2.2 = [.patchJob "j-1" 60720 "USD"]
    ∧ ((calculate_and_update_ch_ctc
        ⟨fun _ => some ⟨"j-1", 60000, "Ontop", "USD"⟩, false⟩
        "p5" "t0" {} []).2.1).get_counter "ctc_calc_updated"
      = ({} : SyncMetrics).get_counter "ctc_calc_updated" + 1 :=
  (ctc_recalculate_amended
    ⟨fun _ => some ⟨"j-1", 60000, "Ontop", "USD"⟩, false⟩
    "p5" "t0" {} [] ⟨"j-1", 60000, "Ontop", "USD"⟩ rfl).2.2 rfl rfl

/-- Every status in the claim's skip set triggers the status-based skip
reason of `_should_skip_timeoff`. -/
theorem statusSkipReason_of_mem (st : String)
    (h : st ∈ (["denied", "rejected", "cancelled", "draft", "pending", "withdrawn"] :
      List String)) : statusSkipReason st = some ("status is " ++ st) := by
  simp only [List.mem_cons, List.not_mem_nil, or_false] at h
  rcases h with rfl | rfl | rfl | rfl | rfl | rfl <;> decide

/-- C5: a time-off entry whose resolved status is denied, rejected,
cancelled, draft, pending or withdrawn is returned as `skipped` by the
timeoff handler, with the in-process mapping untouched and no external
call at all (in particular no planner create or update). -/
theorem timeoff_skip_status_no_write (env : RunnEnv) (nowIso : String)
    (entry : TimeoffEntry) (m : TimeoffMapping) (store : GcsStore)
    (h : resolvedTimeoffStatus entry ∈
      (["denied", "rejected", "cancelled", "draft", "pending", "withdrawn"] : List String)) :
    (sync_timeoff_entry env nowIso entry m store).result.status = "skipped"
    ∧ (sync_timeoff_entry env nowIso entry m store).trace = []
    ∧ (sync_timeoff_entry env nowIso entry m store).mapping = m := by
  have hskip : should_skip_timeoff entry
      = some ("status is " ++ resolvedTimeoffStatus entry) := by
    simp only [should_skip_timeoff, statusSkipReason_of_mem _ h]
  simp only [sync_timeoff_entry, hskip]
  exact ⟨trivial, trivial, trivial⟩

/-- C5 witness: `timeoff_skip_status_no_write` on a denied entry. -/
theorem timeoff_skip_status_no_write_witness :
    (sync_timeoff_entry
        ⟨fun _ => some 42, fun _ => "", fun _ => "", fun _ _ => [], some ⟨some 99⟩, true, true⟩
        "t0" { id := .str "to-7", status := "denied" } {} []).result.status = "skipped"
    ∧ (sync_timeoff_entry
        ⟨fun _ => some 42, fun _ => "", fun _ => "", fun _ _ => [], some ⟨some 99⟩, true, true⟩
        "t0" { id := .str "to-7", status := "denied" } {} []).trace = [] := by
  have h := timeoff_skip_status_no_write
    ⟨fun _ => some 42, fun _ => "", fun _ => "", fun _ _ => [], some ⟨some 99⟩, true, true⟩
    "t0" { id := .str "to-7", status := "denied" } {} [] (by decide)
  exact ⟨h.1, h.2.1⟩

/-- A `timeoff_delete` with no mapping entry for the (normalized) id
returns `skipped`/`no mapping found`, issues no external call, and
leaves the mapping unchanged. -/
theorem delete_no_mapping_skips (env : RunnEnv) (nowIso tid : String)
    (m : TimeoffMapping) (met : SyncMetrics) (store : GcsStore)
    (hn : pyStrip tid = tid) (htid : tid ≠ "")
    (hmap : m.get_runn_id tid = Option.none) :
    (delete_runn_timeoff_event env nowIso tid m met store).1.result.status = "skipped"
    ∧ (delete_runn_timeoff_event env nowIso tid m met store).1.result.reason
        = "no mapping found"
    ∧ (delete_runn_timeoff_event env nowIso tid m met store).1.trace = []
    ∧ (delete_runn_timeoff_event env nowIso tid m met store).1.mapping = m := by
  simp only [TimeoffMapping.get_runn_id, hn] at hmap
  simp only [delete_runn_timeoff_event, TimeoffMapping.get_runn_id, hn, if_neg htid, hmap,
    increment_counter_eq]
  exact ⟨trivial, trivial, trivial, trivial⟩

/-- C6: the `timeoff_delete` handler is replay-safe.  With no mapping for
the id it returns `skipped` with reason `no mapping found` and makes no
planner call; with a mapping and a successful planner delete it removes
the mapping, so a second `timeoff_delete` for the same id returns
`skipped` and issues no planner call. -/
theorem timeoff_delete_replay_safe (env env' : RunnEnv) (nowIso nowIso' tid : String)
    (m : TimeoffMapping) (met : SyncMetrics) (store : GcsStore) (info : MapInfo)
    (hn : pyStrip tid = tid) (htid : tid ≠ "") :
    (m.get_runn_id tid = Option.none →
      (delete_runn_timeoff_event env nowIso tid m met store).1.result.status = "skipped"
      ∧ (delete_runn_timeoff_event env nowIso tid m met store).1.result.reason
          = "no mapping found"
      ∧ (delete_runn_timeoff_event env nowIso tid m met store).1.trace = []
      ∧ (delete_runn_timeoff_event env nowIso tid m met store).1.mapping = m)
    ∧ (m.get_runn_id tid = some info → env.deleteOk = true →
      (delete_runn_timeoff_event env nowIso tid m met store).1.result.status = "deleted"
      ∧ (delete_runn_timeoff_event env nowIso tid m met store).1.trace
          = [.deleteTimeoff info.runnId info.category]
      ∧ ((delete_runn_timeoff_event env nowIso tid m met store).1.mapping).get_runn_id tid
          = Option.none
      ∧ (delete_runn_timeoff_event env' nowIso' tid
            (delete_runn_timeoff_event env nowIso tid m met store).1.mapping
            (delete_runn_timeoff_event env nowIso tid m met store).2
            (delete_runn_timeoff_event env nowIso tid m met store).1.store).1.result.status
          = "skipped"
      ∧ (delete_runn_timeoff_event env' nowIso' tid
            (delete_runn_timeoff_event env nowIso tid m met store).1.mapping
            (delete_runn_timeoff_event env nowIso tid m met store).2
            (delete_runn_timeoff_event env nowIso tid m met store).1.store).1.result.reason
          = "no mapping found"
      ∧ (delete_runn_timeoff_event env' nowIso' tid
            (delete_runn_timeoff_event env nowIso tid m met store).1.mapping
            (delete_runn_timeoff_event env nowIso tid m met store).2
            (delete_runn_timeoff_event env nowIso tid m met store).1.store).1.trace
          = []) := by
  constructor
  · intro hmap
    exact delete_no_mapping_skips env nowIso tid m met store hn htid hmap
  · intro hmap hdel
    have hlook : lookupKey tid m.chToRunn = some info := by
      simpa only [TimeoffMapping.get_runn_id, hn] using hmap
    have hred : (delete_runn_timeoff_event env nowIso tid m met store).1
        = ⟨⟨"deleted", "", some info.runnId, info.category, tid⟩,
            { chToRunn := eraseKey tid m.chToRunn
              runnToCh := eraseKey (toString info.runnId) m.runnToCh },
            store, [.deleteTimeoff info.runnId info.category]⟩ := by
      simp only [delete_runn_timeoff_event, TimeoffMapping.get_runn_id, hn, if_neg htid,
        hlook]
      rw [if_pos hdel]
      rw [mapping_remove_eq m tid info store (by rw [hn]; exact hlook)]
      simp only [increment_counter_eq, record_sync_eq, hn]
    have hmapnone : ((delete_runn_timeoff_event env nowIso tid m met store).1.mapping).get_runn_id
        tid = Option.none := by
      rw [hred]
      simp only [TimeoffMapping.get_runn_id, hn]
      exact lookupKey_erase_self tid m.chToRunn
    have h2 := delete_no_mapping_skips env' nowIso' tid
      (delete_runn_timeoff_event env nowIso tid m met store).1.mapping
      (delete_runn_timeoff_event env nowIso tid m met store).2
      (delete_runn_timeoff_event env nowIso tid m met store).1.store hn htid hmapnone
    exact ⟨by rw [hred], by rw [hred], hmapnone, h2.1, h2.2.1, h2.2.2.1⟩

/-- C6 witness: `timeoff_delete_replay_safe` at a one-entry mapping for
`to-7` and a succeeding planner delete. -/
theorem timeoff_delete_replay_safe_witness :
    (delete_runn_timeoff_event
        ⟨fun _ => some 42, fun _ => "", fun _ => "", fun _ _ => [], Option.none, true, true⟩
        "t1" "to-7"
        ⟨[("to-7", ⟨99, "leave", "a@b.c", "t0"⟩)], [("99", "to-7")]⟩ {} []).1.result.status
      = "deleted"
    ∧ (delete_runn_timeoff_event
        ⟨fun _ => some 42, fun _ => "", fun _ => "", fun _ _ => [], Option.none, true, true⟩
        "t2" "to-7"
        (delete_runn_timeoff_event
          ⟨fun _ => some 42, fun _ => "", fun _ => "", fun _ _ => [], Option.none, true, true⟩
          "t1" "to-7"
          ⟨[("to-7", ⟨99, "leave", "a@b.c", "t0"⟩)], [("99", "to-7")]⟩ {} []).1.mapping
        (delete_runn_timeoff_event
          ⟨fun _ => some 42, fun _ => "", fun _ => "", fun _ _ => [], Option.none, true, true⟩
          "t1" "to-7"
          ⟨[("to-7", ⟨99, "leave", "a@b.c", "t0"⟩)], [("99", "to-7")]⟩ {} []).2
        (delete_runn_timeoff_event
          ⟨fun _ => some 42, fun _ => "", fun _ => "", fun _ _ => [], Option.none, true, true⟩
          "t1" "to-7"
          ⟨[("to-7", ⟨99, "leave", "a@b.c", "t0"⟩)], [("99", "to-7")]⟩ {} []).1.store).1.result.status
      = "skipped" := by
  have h := (timeoff_delete_replay_safe
    ⟨fun _ => some 42, fun _ => "", fun _ => "", fun _ _ => [], Option.none, true, true⟩
    ⟨fun _ => some 42, fun _ => "", fun _ => "", fun _ _ => [], Option.none, true, true⟩
    "t1" "t2" "to-7"
    ⟨[("to-7", ⟨99, "leave", "a@b.c", "t0"⟩)], [("99", "to-7")]⟩ {} []
    ⟨99, "leave", "a@b.c", "t0"⟩ (by decide) (by decide)).2 (by decide) rfl
  exact ⟨h.1, h.2.2.2.1⟩

/-- C1: when the downstream planner create succeeds (returning a created
object with a non-zero id) for an entry carrying an HRIS time-off id,
the timeoff handler records exactly one TimeOffMapping entry, keyed by
the HRIS id and holding the planner id and category, and it does so
strictly after the create call (the trace lists the calls in execution
order, with the single `mappingAdd` last); the handler then returns the
success status `synced`. -/
theorem timeoff_create_records_mapping (env : RunnEnv) (nowIso : String)
    (entry : TimeoffEntry) (m : TimeoffMapping) (store : GcsStore)
    (pid : Int) (sd : String) (resp : CreateResp) (rid : Int)
    (h_skip : should_skip_timeoff entry = Option.none)
    (h_email : resolveTimeoffEmail env entry ≠ "")
    (h_person : env.findPersonByEmail (resolveTimeoffEmail env entry) = some pid)
    (h_start : safe_date (pyOrS entry.fields.startDate entry.startDate) = some sd)
    (h_ext : timeoffExtId entry ≠ "")
    (h_exts : pyStrip (timeoffExtId entry) ≠ "")
    (h_nomap : m.get_runn_id (timeoffExtId entry) = Option.none)
    (h_create : env.createResp = some resp)
    (h_rid : resp.id = some rid)
    (h_rid0 : rid ≠ 0) :
    (sync_timeoff_entry env nowIso entry m store).result.status = "synced"
    ∧ (sync_timeoff_entry env nowIso entry m store).trace
        = [.findPerson (resolveTimeoffEmail env entry),
           .listTimeoffs pid (timeoff_category entry),
           .createTimeoff pid sd
             ((safe_date (pyOrS entry.fields.endDate (pyOrS entry.endDate sd))).getD sd)
             (timeoff_category entry)
             (some ("ChartHop:" ++ timeoffExtId entry ++ " • " ++ timeoff_reason entry)),
           .mappingAdd (timeoffExtId entry) rid (timeoff_category entry)]
    ∧ ((sync_timeoff_entry env nowIso entry m store).trace.filter RunnEv.isMappingAdd).length
        = 1
    ∧ ((sync_timeoff_entry env nowIso entry m store).mapping).get_runn_id (timeoffExtId entry)
        = some ⟨rid, timeoff_category entry, resolveTimeoffEmail env entry, nowIso⟩ := by
  have hred : sync_timeoff_entry env nowIso entry m store
      = ⟨⟨"synced", "", some rid, timeoff_category entry, timeoffExtId entry⟩,
          { chToRunn := insertKey (pyStrip (timeoffExtId entry))
              ⟨rid, timeoff_category entry, resolveTimeoffEmail env entry, nowIso⟩ m.chToRunn
            runnToCh := insertKey (toString rid) (pyStrip (timeoffExtId entry)) m.runnToCh },
          store,
          [.findPerson (resolveTimeoffEmail env entry),
           .listTimeoffs pid (timeoff_category entry),
           .createTimeoff pid sd
             ((safe_date (pyOrS entry.fields.endDate (pyOrS entry.endDate sd))).getD sd)
             (timeoff_category entry)
             (some ("ChartHop:" ++ timeoffExtId entry ++ " • " ++ timeoff_reason entry)),
           .mappingAdd (timeoffExtId entry) rid (timeoff_category entry)]⟩ := by
    simp only [sync_timeoff_entry, h_skip, h_person, h_start, h_create, h_rid,
      Option.getD_some]
    rw [if_neg (by simpa using h_email)]
    rw [if_pos h_ext, h_nomap]
    rw [if_pos (And.intro h_rid0 h_ext)]
    rw [mapping_add_eq m (timeoffExtId entry) rid (timeoff_category entry)
      (resolveTimeoffEmail env entry) nowIso store h_exts]
    rw [if_pos (Or.inl h_ext)]
    rfl
  refine ⟨by rw [hred], by rw [hred], ?_, ?_⟩
  · rw [hred]
    rfl
  · rw [hred]
    simp only [TimeoffMapping.get_runn_id]
    exact lookupKey_insert_self _ _ _

/-- C1 witness: `timeoff_create_records_mapping` on a concrete approved
entry, an empty mapping, and a create that returns id 99. -/
theorem timeoff_create_records_mapping_witness :
    (sync_timeoff_entry
        ⟨fun _ => some 42, fun _ => "", fun _ => "", fun _ _ => [], some ⟨some 99⟩, true, true⟩
        "t0"
        { id := .str "to-7", status := "approved", personEmail := "a@b.c",
          fields := { startDate := "2025-04-10", endDate := "2025-04-12" } }
        {} []).result.status = "synced"
    ∧ ((sync_timeoff_entry
        ⟨fun _ => some 42, fun _ => "", fun _ => "", fun _ _ => [], some ⟨some 99⟩, true, true⟩
        "t0"
        { id := .str "to-7", status := "approved", personEmail := "a@b.c",
          fields := { startDate := "2025-04-10", endDate := "2025-04-12" } }
        {} []).trace.filter RunnEv.isMappingAdd).length = 1
    ∧ ((sync_timeoff_entry
        ⟨fun _ => some 42, fun _ => "", fun _ => "", fun _ _ => [], some ⟨some 99⟩, true, true⟩
        "t0"
        { id := .str "to-7", status := "approved", personEmail := "a@b.c",
          fields := { startDate := "2025-04-10", endDate := "2025-04-12" } }
        {} []).mapping).get_runn_id "to-7"
      = some ⟨99, "leave", "a@b.c", "t0"⟩ := by
  have h := timeoff_create_records_mapping
    ⟨fun _ => some 42, fun _ => "", fun _ => "", fun _ _ => [], some ⟨some 99⟩, true, true⟩
    "t0"
    { id := .str "to-7", status := "approved", personEmail := "a@b.c",
      fields := { startDate := "2025-04-10", endDate := "2025-04-12" } }
    {} [] 42 "2025-04-10" ⟨some 99⟩ 99
    (by decide) (by decide) rfl (by decide) (by decide) (by decide) rfl rfl rfl (by decide)
  exact ⟨h.1, h.2.2.1, h.2.2.2⟩

/-- C8: the per-collection warehouse checkpoint is monotonic.  A run with
rows sets it to the maximum `updatedAt` over the loaded rows, falling
back to the batch-start time when no row carries a parseable timestamp
(both stated here in the non-regressing case, since the code clamps the
new value from below by the previous checkpoint, which is exactly what
makes the stored checkpoint after the run always ≥ the one before). -/
theorem warehouse_checkpoint_monotonic (prev : Option Int) (now : Int)
    (rows : List (Option Int)) :
    (∀ p, prev = some p →
      ∃ q, run_sync_checkpoint prev now rows = some q ∧ p ≤ q)
    ∧ (rows ≠ [] → ∀ mx, maxUpdatedAt rows = some mx →
        (prev = Option.none ∨ ∃ p, prev = some p ∧ p ≤ mx) →
        run_sync_checkpoint prev now rows = some mx)
    ∧ (rows ≠ [] → maxUpdatedAt rows = Option.none →
        (prev = Option.none ∨ ∃ p, prev = some p ∧ p ≤ now) →
        run_sync_checkpoint prev now rows = some now) := by
  refine ⟨?_, ?_, ?_⟩
  · intro p hp
    subst hp
    by_cases hrows : rows.isEmpty
    · exact ⟨p, by simp [run_sync_checkpoint, hrows], le_refl p⟩
    · simp only [run_sync_checkpoint, hrows, if_false, Bool.false_eq_true]
      refine ⟨_, rfl, ?_⟩
      split
      · omega
      · omega
  · intro hrows mx hmx hprev
    have hrows' : rows.isEmpty = false := by
      cases rows with
      | nil => exact absurd rfl hrows
      | cons a l => rfl
    simp only [run_sync_checkpoint, hrows', if_false, Bool.false_eq_true, hmx,
      Option.getD_some]
    rcases hprev with h | ⟨p, hp, hple⟩
    · subst h
      rfl
    · subst hp
      show some (if mx < p then p else mx) = some mx
      rw [if_neg (by omega)]
  · intro hrows hmx hprev
    have hrows' : rows.isEmpty = false := by
      cases rows with
      | nil => exact absurd rfl hrows
      | cons a l => rfl
    simp only [run_sync_checkpoint, hrows', if_false, Bool.false_eq_true, hmx,
      Option.getD_none]
    rcases hprev with h | ⟨p, hp, hple⟩
    · subst h
      rfl
    · subst hp
      show some (if now < p then p else now) = some now
      rw [if_neg (by omega)]

/-- C8 witness: `warehouse_checkpoint_monotonic` at previous checkpoint
5, batch-start 10, and loaded rows with maximum `updatedAt` 7. -/
theorem warehouse_checkpoint_monotonic_witness :
    run_sync_checkpoint (some 5) 10 [some 7, Option.none, some 3] = some 7
    ∧ (5 : Int) ≤ 7 :=
  ⟨(warehouse_checkpoint_monotonic (some 5) 10 [some 7, Option.none, some 3]).2.1
      (by decide) 7 rfl (Or.inr ⟨5, rfl, by omega⟩),
    by omega⟩

/-- C9 counterexample: the claim says every inbound webhook request is
answered with HTTP 200, but a well-formed HRIS `timeoff.create` event
whose task enqueue raises is answered with HTTP 500 by `ch_webhook`. -/
theorem ch_webhook_enqueue_failure_returns_500 :
    ch_webhook ⟨fun _ _ => .error (), fun _ => true, fun _ => true⟩ "POST"
      { type := "timeoff.create", entityId := .str "to-7" } = .resp "" 500
    ∧ ¬ ch_webhook ⟨fun _ _ => .error (), fun _ => true, fun _ => true⟩ "POST"
      { type := "timeoff.create", entityId := .str "to-7" } = .resp "" 200 := by
  exact ⟨by decide, by decide⟩

theorem except_isOk_exists {e a : Type} (x : Except e a) (h : x.isOk = true) :
    ∃ v, x = .ok v := by
  cases x with
  | ok v => exact ⟨v, rfl⟩
  | error err => simp [Except.isOk, Except.toBool] at h

theorem ch_dispatch_ok (env : ChWebhookEnv)
    (isJob isTimeoff isPerson isCreate isUpdate isDelete : Bool) (entityId : String)
    (hEnq : ∀ k i, (env.enqueue k i).isOk = true)
    (hJobC : ∀ i, env.jobCreateOk i = true)
    (hJobU : ∀ i, env.jobUpdateOk i = true) :
    ch_dispatch env isJob isTimeoff isPerson isCreate isUpdate isDelete entityId
      = .resp "" 200 := by
  simp only [ch_dispatch]
  split_ifs <;>
    first
      | rfl
      | (obtain ⟨v, hv⟩ := except_isOk_exists _ (hEnq "timeoff_delete" entityId); rw [hv])
      | (obtain ⟨v, hv⟩ := except_isOk_exists _ (hEnq "timeoff" entityId); rw [hv])
      | (obtain ⟨v, hv⟩ := except_isOk_exists _ (hEnq "person" entityId); rw [hv])
      | simp_all

/-- C9 (amended): the ATS webhook always answers 200 (its whole body is
wrapped in `try/except`), and the HRIS webhook answers 200 for every
request — malformed and unknown events included — provided its task
enqueues succeed and the synchronous job-sync calls do not raise; when a
timeoff or person enqueue raises it answers 500, and a job-sync
exception escapes the handler. -/
theorem webhook_response_policy :
    (∀ (env : TtEnv) (payload : TtPayload) (sig : String),
      tt_webhook env payload sig = ("", 200))
    ∧ (∀ (env : ChWebhookEnv) (evt : ChEvent),
        (∀ k i, (env.enqueue k i).isOk = true) →
        (∀ i, env.jobCreateOk i = true) →
        (∀ i, env.jobUpdateOk i = true) →
        ch_webhook env "POST" evt = .resp "" 200)
    ∧ (∀ (env : ChWebhookEnv) (evt : ChEvent),
        ch_webhook env "GET" evt = .resp "ChartHop webhook up" 200) := by
  refine ⟨?_, ?_, ?_⟩
  · intro env payload sig
    simp only [tt_webhook]
    split_ifs <;> rfl
  · intro env evt hEnq hJobC hJobU
    simp only [ch_webhook]
    rw [if_neg (by decide : ¬ ("POST" : String) = "GET")]
    exact ch_dispatch_ok env _ _ _ _ _ _ _ hEnq hJobC hJobU
  · intro env evt
    rfl

/-- C9 witness: `webhook_response_policy` at concrete environments,
including a malformed HRIS event. -/
theorem webhook_response_policy_witness :
    tt_webhook ⟨fun _ _ => false, true, "", "", .none, true⟩ {} "sig" = ("", 200)
    ∧ ch_webhook ⟨fun _ i => .ok i, fun _ => true, fun _ => true⟩ "POST"
        { type := "timeoff.create", entityId := .str "to-7" } = .resp "" 200
    ∧ ch_webhook ⟨fun _ i => .ok i, fun _ => true, fun _ => true⟩ "POST"
        { type := "garbage-event" } = .resp "" 200 :=
  ⟨webhook_response_policy.1 ⟨fun _ _ => false, true, "", "", .none, true⟩ {} "sig",
    webhook_response_policy.2.1 ⟨fun _ i => .ok i, fun _ => true, fun _ => true⟩
      { type := "timeoff.create", entityId := .str "to-7" }
      (fun _ _ => rfl) (fun _ => rfl) (fun _ => rfl),
    webhook_response_policy.2.1 ⟨fun _ i => .ok i, fun _ => true, fun _ => true⟩
      { type := "garbage-event" }
      (fun _ _ => rfl) (fun _ => rfl) (fun _ => rfl)⟩

theorem mergeRow_pk {α : Type} (g : Bool) (staging : List (MRow α)) (t : MRow α) :
    (mergeRow g staging t).pk = t.pk := by
  cases hf : findPk t.pk staging with
  | none => simp [mergeRow, hf]
  | some s => by_cases h : (!g || tsGuard s t) = true <;> simp [mergeRow, hf, h]

theorem findPk_some_pk {α : Type} (k : String) (l : List (MRow α)) (t : MRow α)
    (h : findPk k l = some t) : t.pk = k := by
  induction l with
  | nil => simp [findPk] at h
  | cons hd tl ih =>
    by_cases hpk : hd.pk = k
    · rw [findPk, if_pos hpk] at h
      obtain rfl : hd = t := by injection h
      exact hpk
    · rw [findPk, if_neg hpk] at h
      exact ih h

theorem findPk_map_mergeRow {α : Type} (g : Bool) (staging target : List (MRow α))
    (k : String) (t : MRow α) (ht : findPk k target = some t) :
    findPk k (target.map (mergeRow g staging)) = some (mergeRow g staging t) := by
  induction target with
  | nil => simp [findPk] at ht
  | cons hd tl ih =>
    by_cases hpk : hd.pk = k
    · rw [findPk, if_pos hpk] at ht
      obtain rfl : hd = t := by injection ht
      rw [List.map_cons, findPk, if_pos (by rw [mergeRow_pk]; exact hpk)]
    · rw [findPk, if_neg hpk] at ht
      rw [List.map_cons, findPk, if_neg (by rw [mergeRow_pk]; exact hpk)]
      exact ih ht

theorem findPk_map_mergeRow_none {α : Type} (g : Bool) (staging target : List (MRow α))
    (k : String) (ht : findPk k target = Option.none) :
    findPk k (target.map (mergeRow g staging)) = Option.none := by
  induction target with
  | nil => rfl
  | cons hd tl ih =>
    by_cases hpk : hd.pk = k
    · rw [findPk, if_pos hpk] at ht
      exact absurd ht (by simp)
    · rw [findPk, if_neg hpk] at ht
      rw [List.map_cons, findPk, if_neg (by rw [mergeRow_pk]; exact hpk)]
      exact ih ht

theorem findPk_append {α : Type} (k : String) (l₁ l₂ : List (MRow α)) :
    findPk k (l₁ ++ l₂)
      = match findPk k l₁ with
        | some r => some r
        | Option.none => findPk k l₂ := by
  induction l₁ with
  | nil => rfl
  | cons hd tl ih =>
    by_cases hpk : hd.pk = k
    · rw [List.cons_append, findPk, if_pos hpk, findPk, if_pos hpk]
    · rw [List.cons_append, findPk, if_neg hpk, findPk, if_neg hpk]
      exact ih

theorem findPk_filter_unmatched {α : Type} (k : String) (target staging : List (MRow α))
    (s : MRow α) (hs : findPk k staging = some s) (ht : findPk k target = Option.none) :
    findPk k (staging.filter (fun r => (findPk r.pk target).isNone)) = some s := by
  induction staging with
  | nil => simp [findPk] at hs
  | cons hd tl ih =>
    by_cases hpk : hd.pk = k
    · rw [findPk, if_pos hpk] at hs
      obtain rfl : hd = s := by injection hs
      have hkeep : (findPk hd.pk target).isNone = true := by
        rw [hpk, ht]
        rfl
      rw [List.filter_cons, if_pos hkeep, findPk, if_pos hpk]
    · rw [findPk, if_neg hpk] at hs
      rw [List.filter_cons]
      split
      · rw [findPk, if_neg hpk]
        exact ih hs
      · exact ih hs

/-- C7: in the warehouse MERGE built by `_merge_upsert`, when the
configured ts field exists in both the target and the staging schemas a
matched row is updated only if
`SAFE.TIMESTAMP(S.ts) > SAFE.TIMESTAMP(T.ts)` or either side's ts is
NULL — so a staging row with an older timestamp leaves the target row
unchanged; when no shared ts field exists the update is unconditional on
match; and unmatched staging rows are inserted. -/
theorem warehouse_merge_ts_guard {α : Type} (cfg : MergeCfg)
    (stagingFields targetFields : List String) (target staging : List (MRow α))
    (k : String) :
    (has_ts cfg stagingFields targetFields = true ↔
      ∃ tf, cfg.ts = some tf ∧ tf ∈ stagingFields ∧ tf ∈ targetFields)
    ∧ (∀ t s, has_ts cfg stagingFields targetFields = true →
        findPk k target = some t → findPk k staging = some s → tsGuard s t = false →
        findPk k (merge_upsert_model cfg stagingFields targetFields target staging) = some t)
    ∧ (∀ t s, has_ts cfg stagingFields targetFields = false →
        findPk k target = some t → findPk k staging = some s →
        findPk k (merge_upsert_model cfg stagingFields targetFields target staging)
          = some { pk := t.pk, ts := s.ts, payload := s.payload })
    ∧ (∀ s, findPk k target = Option.none → findPk k staging = some s →
        findPk k (merge_upsert_model cfg stagingFields targetFields target staging)
          = some s) := by
  refine ⟨?_, ?_, ?_, ?_⟩
  · cases hts : cfg.ts with
    | none => simp [has_ts, hts]
    | some tf => simp [has_ts, hts]
  · intro t s hts ht hs hguard
    have hpk : t.pk = k := findPk_some_pk k target t ht
    have hfind : findPk t.pk staging = some s := by
      rw [hpk]
      exact hs
    simp only [merge_upsert_model, hts, merge_upsert]
    rw [findPk_append, findPk_map_mergeRow true staging target k t ht]
    simp only [mergeRow, hfind]
    rw [if_neg (by simp [hguard])]
  · intro t s hts ht hs
    have hpk : t.pk = k := findPk_some_pk k target t ht
    have hfind : findPk t.pk staging = some s := by
      rw [hpk]
      exact hs
    simp only [merge_upsert_model, hts, merge_upsert]
    rw [findPk_append, findPk_map_mergeRow false staging target k t ht]
    simp only [mergeRow, hfind]
    rw [if_pos (by simp)]
  · intro s ht hs
    simp only [merge_upsert_model, merge_upsert]
    rw [findPk_append, findPk_map_mergeRow_none _ staging target k ht]
    exact findPk_filter_unmatched k target staging s hs ht

/-- C7 witness: the spec's MERGE scenario — target row `a` with
`updatedAt` newer than the staging row's — is left unchanged, and a
fresh staging row `b` is inserted. -/
theorem warehouse_merge_ts_guard_witness :
    findPk "a" (merge_upsert_model ⟨"id", some "updatedAt"⟩ ["id", "updatedAt", "v"]
        ["id", "updatedAt", "v"]
        [⟨"a", .valid 2, (1 : Int)⟩] [⟨"a", .valid 1, 2⟩, ⟨"b", .valid 1, 5⟩])
      = some ⟨"a", .valid 2, 1⟩
    ∧ findPk "b" (merge_upsert_model ⟨"id", some "updatedAt"⟩ ["id", "updatedAt", "v"]
        ["id", "updatedAt", "v"]
        [⟨"a", .valid 2, (1 : Int)⟩] [⟨"a", .valid 1, 2⟩, ⟨"b", .valid 1, 5⟩])
      = some ⟨"b", .valid 1, 5⟩ :=
  ⟨(warehouse_merge_ts_guard ⟨"id", some "updatedAt"⟩ ["id", "updatedAt", "v"]
      ["id", "updatedAt", "v"]
      [⟨"a", .valid 2, (1 : Int)⟩] [⟨"a", .valid 1, 2⟩, ⟨"b", .valid 1, 5⟩] "a").2.1
      ⟨"a", .valid 2, 1⟩ ⟨"a", .valid 1, 2⟩ (by decide) rfl rfl (by decide),
    (warehouse_merge_ts_guard ⟨"id", some "updatedAt"⟩ ["id", "updatedAt", "v"]
      ["id", "updatedAt", "v"]
      [⟨"a", .valid 2, (1 : Int)⟩] [⟨"a", .valid 1, 2⟩, ⟨"b", .valid 1, 5⟩] "b").2.2.2
      ⟨"b", .valid 1, 5⟩ rfl rfl⟩

/-- C10 counterexample: after a full export, an immediate delta run with
no upstream change produces zero rows to send and skips the upload, but
the stored manifest is NOT left unchanged: the `ch_person_id` fields,
stored empty by the full export, are populated by the delta rewrite. -/
theorem snapshot_full_delta_manifest_changes :
    full_export (fun r => r.employeeId) [({ employeeId := "e1" }, "p1")]
      = .ok ([("e1", ⟨"e1", "", { employeeId := "e1" }⟩)], 1)
    ∧ (delta_export (fun r => r.employeeId) ⟨fun _ => Option.none⟩
        [({ employeeId := "e1" }, "p1")]
        [("e1", ⟨"e1", "", { employeeId := "e1" }⟩)]).1 = ⟨0, true, false⟩
    ∧ (delta_export (fun r => r.employeeId) ⟨fun _ => Option.none⟩
        [({ employeeId := "e1" }, "p1")]
        [("e1", ⟨"e1", "", { employeeId := "e1" }⟩)]).2
      = [("e1", ⟨"e1", "p1", { employeeId := "e1" }⟩)]
    ∧ (delta_export (fun r => r.employeeId) ⟨fun _ => Option.none⟩
        [({ employeeId := "e1" }, "p1")]
        [("e1", ⟨"e1", "", { employeeId := "e1" }⟩)]).2
      ≠ [("e1", ⟨"e1", "", { employeeId := "e1" }⟩)] := by
  refine ⟨rfl, rfl, rfl, ?_⟩
  decide

theorem lookupKey_append {γ : Type} (k : String) (l₁ l₂ : List (String × γ)) :
    lookupKey k (l₁ ++ l₂)
      = match lookupKey k l₁ with
        | some v => some v
        | Option.none => lookupKey k l₂ := by
  induction l₁ with
  | nil => rfl
  | cons hd tl ih =>
    obtain ⟨k₀, v₀⟩ := hd
    by_cases hk : k₀ = k
    · rw [List.cons_append, lookupKey, if_pos hk, lookupKey, if_pos hk]
    · rw [List.cons_append, lookupKey, if_neg hk, lookupKey, if_neg hk]
      exact ih

theorem lookupKey_eq_none_of_keys {γ : Type} (k : String) (l : List (String × γ))
    (h : ∀ p ∈ l, p.1 ≠ k) : lookupKey k l = Option.none := by
  induction l with
  | nil => rfl
  | cons hd tl ih =>
    rw [lookupKey, if_neg (h hd (List.mem_cons_self hd tl))]
    exact ih (fun p hp => h p (List.mem_cons_of_mem hd hp))

theorem foldl_insertKey_eq {β γ : Type} (key : β → String) (val : β → γ) (l : List β)
    (acc : List (String × γ)) (hdis : ∀ b ∈ l, lookupKey (key b) acc = Option.none)
    (hn : (l.map key).Nodup) :
    l.foldl (fun a b => insertKey (key b) (val b) a) acc
      = (l.map (fun b => (key b, val b))).reverse ++ acc := by
  induction l generalizing acc with
  | nil => rfl
  | cons hd tl ih =>
    rw [List.foldl_cons]
    have hins : insertKey (key hd) (val hd) acc = (key hd, val hd) :: acc := by
      rw [insertKey, eraseKey_of_not_mem _ _ (hdis hd (List.mem_cons_self hd tl))]
    rw [hins]
    rw [List.map_cons, List.nodup_cons] at hn
    have htl := ih ((key hd, val hd) :: acc) ?_ hn.2
    · rw [htl, List.map_cons, List.reverse_cons, List.append_assoc]
      rfl
    · intro b hb
      rw [lookupKey, if_neg ?_]
      · exact hdis b (List.mem_cons_of_mem hd hb)
      · intro hkeq
        exact hn.1 (hkeq ▸ List.mem_map_of_mem key hb)

theorem lookupKey_reverse_map {β γ : Type} (key : β → String) (val : β → γ)
    (l : List β) (hn : (l.map key).Nodup) (b : β) (hb : b ∈ l) :
    lookupKey (key b) ((l.map (fun x => (key x, val x))).reverse) = some (val b) := by
  induction l with
  | nil => exact absurd hb (List.not_mem_nil b)
  | cons hd tl ih =>
    rw [List.map_cons, List.nodup_cons] at hn
    rw [List.map_cons, List.reverse_cons, lookupKey_append]
    rcases List.mem_cons.mp hb with rfl | hbtl
    · rw [lookupKey_eq_none_of_keys]
      · rw [lookupKey, if_pos rfl]
      · intro p hp
        rw [List.mem_reverse] at hp
        obtain ⟨x, hx, rfl⟩ := List.mem_map.mp hp
        intro hkeq
        exact hn.1 (hkeq ▸ List.mem_map_of_mem key hx)
    · rw [ih hn.2 hbtl]

theorem foldl_fixed_of_steps {β γ : Type} (l : List β) (step : γ → β → γ) (acc : γ)
    (h : ∀ b ∈ l, ∀ a, step a b = a) : l.foldl step acc = acc := by
  induction l generalizing acc with
  | nil => rfl
  | cons hd tl ih =>
    rw [List.foldl_cons, h hd (List.mem_cons_self hd tl)]
    exact ih acc (fun b hb a => h b (List.mem_cons_of_mem hd hb) a)

theorem manifest_map_rebuild (l : Manifest) :
    l.map (fun p => (p.1, (⟨p.2.hash, p.2.chPersonId, p.2.row⟩ : ManifestEntry))) = l := by
  induction l with
  | nil => rfl
  | cons hd tl ih => simp [ih]

theorem filter_eq_nil_of_false {β : Type} (p' : β → Bool) (l : List β)
    (h : ∀ x ∈ l, p' x = false) : l.filter p' = [] := by
  induction l with
  | nil => rfl
  | cons hd tl ih =>
    rw [List.filter_cons, if_neg (by simp [h hd (List.mem_cons_self hd tl)])]
    exact ih (fun x hx => h x (List.mem_cons_of_mem hd hx))

/-- C10 (amended): running the snapshot export in full mode and then
immediately in delta mode with no upstream change produces zero rows to
send and skips the SFTP upload; the stored manifest is rewritten to the
current snapshot with the same keys, hashes and rows, the only change
being that the `ch_person_id` fields — stored empty by the full
export — are populated with the HRIS person ids of the current scan. -/
theorem snapshot_full_delta_amended (hashF : CaRow → String) (env : CaEnv)
    (upstream : List (CaRow × String)) (hne : upstream ≠ [])
    (hnodup : (upstream.map (fun p => p.1.employeeId)).Nodup) :
    full_export hashF upstream
      = .ok ((upstream.map (fun p =>
            (p.1.employeeId, (⟨hashF p.1, "", p.1⟩ : ManifestEntry)))).reverse,
          (upstream.map (fun p => p.1)).length)
    ∧ (delta_export hashF env upstream
        ((upstream.map (fun p =>
            (p.1.employeeId, (⟨hashF p.1, "", p.1⟩ : ManifestEntry)))).reverse)).1
      = ⟨0, true, false⟩
    ∧ ((delta_export hashF env upstream
        ((upstream.map (fun p =>
            (p.1.employeeId, (⟨hashF p.1, "", p.1⟩ : ManifestEntry)))).reverse)).2).map
          (fun p => (p.1, p.2.hash, p.2.row))
      = ((upstream.map (fun p =>
            (p.1.employeeId, (⟨hashF p.1, "", p.1⟩ : ManifestEntry)))).reverse).map
          (fun p => (p.1, p.2.hash, p.2.row))
    ∧ ∀ p ∈ upstream,
        lookupKey p.1.employeeId
            (delta_export hashF env upstream
              ((upstream.map (fun q =>
                  (q.1.employeeId, (⟨hashF q.1, "", q.1⟩ : ManifestEntry)))).reverse)).2
          = some ⟨hashF p.1, p.2, p.1⟩ := by
  have hrows : (upstream.map (fun p => p.1)).isEmpty = false := by
    cases upstream with
    | nil => exact absurd rfl hne
    | cons a l => rfl
  have hn1 : ((upstream.map (fun p => p.1)).map (fun r => r.employeeId)).Nodup := by
    rw [List.map_map]
    exact hnodup
  have hfull : full_export hashF upstream
      = .ok ((upstream.map (fun p =>
            (p.1.employeeId, (⟨hashF p.1, "", p.1⟩ : ManifestEntry)))).reverse,
          (upstream.map (fun p => p.1)).length) := by
    simp only [full_export, hrows, Bool.false_eq_true, if_false]
    rw [foldl_insertKey_eq (fun r => r.employeeId)
      (fun r => (⟨hashF r, "", r⟩ : ManifestEntry)) (upstream.map (fun p => p.1)) []
      (fun b _ => rfl) hn1]
    rw [List.append_nil, List.map_map]
    rfl
  have hmeta : buildCurrentMeta hashF upstream
      = (upstream.map (fun p =>
          (p.1.employeeId, (⟨hashF p.1, p.2, p.1⟩ : ManifestEntry)))).reverse := by
    simp only [buildCurrentMeta]
    rw [foldl_insertKey_eq (fun p => p.1.employeeId)
      (fun p => (⟨hashF p.1, p.2, p.1⟩ : ManifestEntry)) upstream [] (fun b _ => rfl) hnodup]
    rw [List.append_nil]
  have hsend : deltaNewChanged
      ((upstream.map (fun p =>
          (p.1.employeeId, (⟨hashF p.1, "", p.1⟩ : ManifestEntry)))).reverse)
      (buildCurrentMeta hashF upstream) = [] := by
    rw [hmeta]
    simp only [deltaNewChanged]
    apply foldl_fixed_of_steps
    intro pr hpr a
    rw [List.mem_reverse] at hpr
    obtain ⟨p, hp, rfl⟩ := List.mem_map.mp hpr
    have hl := lookupKey_reverse_map (fun q => (q : CaRow × String).1.employeeId)
      (fun q => (⟨hashF q.1, "", q.1⟩ : ManifestEntry)) upstream hnodup p hp
    simp [hl]
  have hmiss : missingIds
      ((upstream.map (fun p =>
          (p.1.employeeId, (⟨hashF p.1, "", p.1⟩ : ManifestEntry)))).reverse)
      (buildCurrentMeta hashF upstream) = [] := by
    simp only [missingIds]
    apply filter_eq_nil_of_false
    intro k hk
    rw [List.map_reverse, List.map_map, List.mem_reverse] at hk
    obtain ⟨p, hp, rfl⟩ := List.mem_map.mp hk
    have hl := lookupKey_reverse_map (fun q => (q : CaRow × String).1.employeeId)
      (fun q => (⟨hashF q.1, q.2, q.1⟩ : ManifestEntry)) upstream hnodup p hp
    rw [hmeta]
    simp only [Function.comp]
    rw [hl]
    rfl
  have hd : delta_export hashF env upstream
      ((upstream.map (fun p =>
          (p.1.employeeId, (⟨hashF p.1, "", p.1⟩ : ManifestEntry)))).reverse)
      = (⟨0, true, false⟩, buildCurrentMeta hashF upstream) := by
    simp only [delta_export, hsend, hmiss]
    simp only [deltaMissing, List.foldl_nil, List.isEmpty_nil, if_true]
    rw [manifest_map_rebuild]
  refine ⟨hfull, by rw [hd], ?_, ?_⟩
  · rw [hd]
    rw [hmeta]
    rw [List.map_reverse, List.map_reverse, List.map_map, List.map_map]
    rfl
  · intro p hp
    rw [hd]
    rw [hmeta]
    exact lookupKey_reverse_map (fun q => (q : CaRow × String).1.employeeId)
      (fun q => (⟨hashF q.1, q.2, q.1⟩ : ManifestEntry)) upstream hnodup p hp

/-- C10 witness: `snapshot_full_delta_amended` on a single-person scan. -/
theorem snapshot_full_delta_amended_witness :
    (delta_export (fun r => r.employeeId) ⟨fun _ => Option.none⟩
        [({ employeeId := "e1" }, "p1")]
        [("e1", ⟨"e1", "", { employeeId := "e1" }⟩)]).1 = ⟨0, true, false⟩
    ∧ lookupKey "e1" (delta_export (fun r => r.employeeId) ⟨fun _ => Option.none⟩
        [({ employeeId := "e1" }, "p1")]
        [("e1", ⟨"e1", "", { employeeId := "e1" }⟩)]).2
      = some ⟨"e1", "p1", { employeeId := "e1" }⟩ := by
  have h := snapshot_full_delta_amended (fun r => r.employeeId) ⟨fun _ => Option.none⟩
    [({ employeeId := "e1" }, "p1")] (by decide) (by simp)
  exact ⟨h.2.1, h.2.2.2 ({ employeeId := "e1" }, "p1") (List.mem_singleton_self _)⟩
